import Mathlib

/-!
# Circuit breaker of the gateway (`breaker/breaker.go`, `main.go`)

A shallow embedding of the `breaker` package, of the handler
`createCircuitBreakerHandler` of `main.go`, and of the facts the gateway's
specification states about them.

Modelling conventions.

* Go `int` counters are `Int`.  `UpdateStatus` and `GetFailedRequests` compute
  over the unbounded integers; `UpdateStatus64` and `GetFailedRequests64` are
  the same functions on the 64-bit `int`, where `++` and `-` wrap.  The two
  agree on every breaker whose counters are non-negative and below the largest
  `int` (`updateStatus64_eq`, `getFailedRequests64_eq`), which a breaker made
  by `NewBreaker` leaves only after `2^63 - 1` recorded requests
  (`reachable_updateStatus64_eq`).  Where a statement is about the value an
  increment leaves in an arbitrary breaker state, it is made of the 64-bit
  functions.
* Go `float64` is the type `Float64` below: NaN, the two infinities and the
  finite values, with correctly rounded (round to nearest, ties to even)
  conversion from integers and division.  The two zeros are identified: the
  only divisors in this package are conversions of an `int`, which are never
  the negative zero.
* A method with a pointer receiver is a function returning what the method
  returns together with the receiver after the call.
* `go brkr.Timer(next)` is recorded as a pending timer; the moment it fires is
  an event of its own (`Event.fire`), the sleep itself is not modelled.
* `statusUpdateLock` guards nothing but the single assignment in `Timer`; in the
  atomic-step model it is free between any two steps and is left out of the
  state.
* The handler's effects (calls on the response writer, calls of the wrapped
  handler and of `UpdateStatus`, the log line) are recorded as a trace
  (`Served`).
* Goroutines that are inside `UpdateStatus` at the same time are modelled
  statement by statement (`microStep`, `interleave`); a goroutine running alone
  computes `UpdateStatus` (`runAlone_updateStatus`).
-/

namespace Breaker

/-! ## float64 -/

/-- A value of Go's `float64`; the finite ones carry their exact rational value. -/
inductive Float64 where
  | nan
  | negInf
  | posInf
  | finite (q : ℚ)
  deriving DecidableEq

namespace Float64

/-- The exponent `e` of the binade of `n / d`, that is `2^e ≤ n / d < 2^(e+1)`,
for positive `n` and `d`. -/
def binade (n d : Nat) : Int :=
  let e : Int := (Nat.log2 n : Int) - (Nat.log2 d : Int)
  if n * 2 ^ (-e).toNat < d * 2 ^ e.toNat then e - 1 else e

/-- Round `n / d` to the nearest natural number, ties to the even one. -/
def roundHalfEven (n d : Nat) : Nat :=
  let f := n / d
  let r := n % d
  if 2 * r < d then f
  else if d < 2 * r then f + 1
  else if f % 2 = 0 then f else f + 1

/-- Round a rational to the nearest `float64` (53-bit significand, exponents
`-1022 .. 1023`, gradual underflow, overflow to an infinity), ties to even. -/
def roundNearest (q : ℚ) : Float64 :=
  if q = 0 then finite 0
  else
    let n := q.num.natAbs
    let d := q.den
    let e : Int := max (binade n d) (-1022)
    let up := (e - 52).toNat
    let dn := (52 - e).toNat
    let m := roundHalfEven (n * 2 ^ dn) (d * 2 ^ up)
    if 2 ^ 1024 * 2 ^ dn ≤ m * 2 ^ up then
      (if q < 0 then negInf else posInf)
    else
      let v : ℚ := mkRat ((m * 2 ^ up : Nat) : Int) (2 ^ dn)
      finite (if q < 0 then -v else v)

/-- The conversion `float64(n)` of an integer. -/
def ofInt (n : Int) : Float64 := roundNearest (n : ℚ)

/-- The quotient `x / y` of two `float64` values. -/
def div : Float64 → Float64 → Float64
  | nan, _ => nan
  | _, nan => nan
  | finite a, finite b =>
      if b = 0 then (if a = 0 then nan else if a < 0 then negInf else posInf)
      else roundNearest (a / b)
  | finite _, _ => finite 0
  | posInf, finite b => if b < 0 then negInf else posInf
  | negInf, finite b => if b < 0 then posInf else negInf
  | _, _ => nan

/-- The product `x * y` of two `float64` values. -/
def mul : Float64 → Float64 → Float64
  | nan, _ => nan
  | _, nan => nan
  | finite a, finite b => roundNearest (a * b)
  | finite a, posInf => if a = 0 then nan else if a < 0 then negInf else posInf
  | finite a, negInf => if a = 0 then nan else if a < 0 then posInf else negInf
  | posInf, finite b => if b = 0 then nan else if b < 0 then negInf else posInf
  | negInf, finite b => if b = 0 then nan else if b < 0 then posInf else negInf
  | posInf, posInf => posInf
  | negInf, negInf => posInf
  | posInf, negInf => negInf
  | negInf, posInf => negInf

/-- The comparison `x <= y`; false as soon as one side is NaN. -/
def le : Float64 → Float64 → Bool
  | nan, _ => false
  | _, nan => false
  | negInf, _ => true
  | _, posInf => true
  | finite a, finite b => decide (a ≤ b)
  | _, _ => false

/-- The comparison `x < y`; false as soon as one side is NaN. -/
def lt : Float64 → Float64 → Bool
  | nan, _ => false
  | _, nan => false
  | posInf, _ => false
  | _, negInf => false
  | finite a, finite b => decide (a < b)
  | _, _ => true

/-- The comparison `x >= y`. -/
def ge (x y : Float64) : Bool := le y x

/-- The comparison `x > y`. -/
def gt (x y : Float64) : Bool := lt y x

end Float64

/-! ## The breaker -/

/-- `type Status int` with its three constants `OPEN`, `CLOSE`, `HALF_OPEN`. -/
inductive Status where
  | OPEN
  | CLOSE
  | HALF_OPEN
  deriving DecidableEq, Repr

end Breaker

/-- `type Breaker struct`; durations are counted in nanoseconds. -/
structure Breaker where
  FailureThreshold : Breaker.Float64
  CurrentStatus : Breaker.Status
  RequestCounter : Int
  HalfReqCounter : Int
  SuccessCounter : Int
  HalfSucCounter : Int
  MaxHalfOpenReqs : Int
  OpenTimer : Int
  HalfOpenTimer : Int
  deriving DecidableEq

namespace Breaker

/-- `time.Second`, in nanoseconds. -/
def Second : Int := 1000000000

/-- The zero value `new(Breaker)` allocates. -/
def zeroValue : Breaker :=
  { FailureThreshold := Float64.finite 0
    CurrentStatus := Status.OPEN
    RequestCounter := 0
    HalfReqCounter := 0
    SuccessCounter := 0
    HalfSucCounter := 0
    MaxHalfOpenReqs := 0
    OpenTimer := 0
    HalfOpenTimer := 0 }

/-- `func NewBreaker(failThresh float64) (*Breaker, error)`. -/
def NewBreaker (failThresh : Float64) : Except String Breaker :=
  if Float64.le failThresh (Float64.finite 0) then
    Except.error "nnnvalid Threshold provided to me. Should be greater than 0"
  else
    let brkr := zeroValue
    let brkr := { brkr with CurrentStatus := Status.CLOSE }
    let brkr := { brkr with FailureThreshold := failThresh }
    let brkr := { brkr with SuccessCounter := 0 }
    let brkr := { brkr with RequestCounter := 0 }
    let brkr := { brkr with OpenTimer := Second * 10 }
    let brkr := { brkr with HalfOpenTimer := Second * 20 }
    Except.ok brkr

/-- `func (brkr *Breaker) AllowFlow() bool`. -/
def AllowFlow (brkr : Breaker) : Bool × Breaker :=
  if brkr.CurrentStatus = Status.CLOSE ∨ brkr.CurrentStatus = Status.HALF_OPEN then
    (true, brkr)
  else
    (false, brkr)

/-- `func (brkr *Breaker) GetFailedRequests() float64`, over the unbounded
integers. -/
def GetFailedRequests (brkr : Breaker) : Float64 × Breaker :=
  if brkr.CurrentStatus = Status.HALF_OPEN then
    (Float64.div (Float64.ofInt (brkr.HalfReqCounter - brkr.HalfSucCounter))
      (Float64.ofInt brkr.HalfReqCounter), brkr)
  else
    (Float64.div (Float64.ofInt (brkr.RequestCounter - brkr.SuccessCounter))
      (Float64.ofInt brkr.RequestCounter), brkr)

/-- `func (brkr *Breaker) UpdateStatus(respCode int)`, over the unbounded
integers.  The second component lists the `Timer` goroutines the call starts,
each with its argument. -/
def UpdateStatus (brkr : Breaker) (respCode : Int) : Breaker × List Status :=
  match brkr.CurrentStatus with
  | Status.CLOSE =>
    let brkr := { brkr with RequestCounter := brkr.RequestCounter + 1 }
    if Int.tdiv respCode 100 = 2 then
      ({ brkr with SuccessCounter := brkr.SuccessCounter + 1 }, [])
    else
      ({ brkr with CurrentStatus := Status.OPEN }, [Status.HALF_OPEN])
  | Status.HALF_OPEN =>
    let brkr := { brkr with HalfReqCounter := brkr.HalfReqCounter + 1 }
    let brkr :=
      if Int.tdiv respCode 100 = 2 then
        { brkr with HalfSucCounter := brkr.HalfSucCounter + 1 }
      else brkr
    if brkr.HalfReqCounter ≥ brkr.MaxHalfOpenReqs then
      let brkr :=
        if Float64.ge (GetFailedRequests brkr).1 brkr.FailureThreshold then
          { (GetFailedRequests brkr).2 with CurrentStatus := Status.OPEN }
        else
          { (GetFailedRequests brkr).2 with
            CurrentStatus := Status.CLOSE, RequestCounter := 0, SuccessCounter := 0 }
      ({ brkr with HalfReqCounter := 0, HalfSucCounter := 0 }, [])
    else
      (brkr, [])
  | Status.OPEN => (brkr, [])

/-- `func (brkr *Breaker) Timer(nextStatus Status)`, at the moment its timer
fires: the status is overwritten, whatever it was. -/
def Timer (brkr : Breaker) (nextStatus : Status) : Breaker :=
  { brkr with CurrentStatus := nextStatus }

/-! ## The breaker together with its pending timers -/

/-- A breaker and the `Timer` goroutines that were started and have not fired
yet, each with its `nextStatus` argument. -/
structure World where
  brkr : Breaker
  timers : List Status
  deriving DecidableEq

/-- What can happen to a breaker: an outcome is recorded, or the pending timer
at position `i` fires. -/
inductive Event where
  | update (respCode : Int)
  | fire (i : Nat)
  deriving DecidableEq

/-- One atomic step.  Firing a timer that is not pending changes nothing. -/
def step (w : World) : Event → World
  | Event.update respCode =>
    { brkr := (UpdateStatus w.brkr respCode).1
      timers := w.timers ++ (UpdateStatus w.brkr respCode).2 }
  | Event.fire i =>
    match w.timers.get? i with
    | some nextStatus => { brkr := Timer w.brkr nextStatus, timers := w.timers.eraseIdx i }
    | none => w

/-- Run a finite sequence of events. -/
def run (w : World) (evs : List Event) : World := evs.foldl step w

/-- The states reachable from a breaker `NewBreaker` returned. -/
def Reachable (w : World) : Prop :=
  ∃ failThresh brkr evs,
    NewBreaker failThresh = Except.ok brkr ∧ w = run { brkr := brkr, timers := [] } evs

/-- A response code of the 2xx class. -/
def IsSuccess (respCode : Int) : Prop := 200 ≤ respCode ∧ respCode ≤ 299

instance (respCode : Int) : Decidable (IsSuccess respCode) := by
  unfold IsSuccess; infer_instance

/-! ## Auxiliary definitions for the proofs -/

/-- The breaker after the two tallying statements of the `HALF_OPEN` case. -/
def halfOpenTally (brkr : Breaker) (respCode : Int) : Breaker :=
  { brkr with
    HalfReqCounter := brkr.HalfReqCounter + 1
    HalfSucCounter := brkr.HalfSucCounter + (if Int.tdiv respCode 100 = 2 then 1 else 0) }

/-- The quotient `GetFailedRequests` computes in status `HALF_OPEN`. -/
def halfOpenRate (brkr : Breaker) : Float64 :=
  Float64.div (Float64.ofInt (brkr.HalfReqCounter - brkr.HalfSucCounter))
    (Float64.ofInt brkr.HalfReqCounter)

/-- What holds in every state reachable from a new breaker: at most one timer is
pending, and only while the status is `OPEN`; a closed breaker has recorded
successes only; the trial count is zero, so both half-open counters are zero
between any two steps; the closed-phase counters are ordered. -/
def Inv (w : World) : Prop :=
  (w.timers = [] ∨ (w.brkr.CurrentStatus = Status.OPEN ∧ w.timers = [Status.HALF_OPEN])) ∧
    (w.brkr.CurrentStatus = Status.CLOSE → w.brkr.RequestCounter = w.brkr.SuccessCounter) ∧
    w.brkr.MaxHalfOpenReqs = 0 ∧ w.brkr.HalfReqCounter = 0 ∧ w.brkr.HalfSucCounter = 0 ∧
    0 ≤ w.brkr.SuccessCounter ∧ w.brkr.SuccessCounter ≤ w.brkr.RequestCounter

/-- The breaker `NewBreaker(0.5)` returns, as the gateway builds it for each
route. -/
def gatewayBreaker : Breaker :=
  { FailureThreshold := Float64.finite (1 / 2)
    CurrentStatus := Status.CLOSE
    RequestCounter := 0
    HalfReqCounter := 0
    SuccessCounter := 0
    HalfSucCounter := 0
    MaxHalfOpenReqs := 0
    OpenTimer := 10000000000
    HalfOpenTimer := 20000000000 }

/-- The gateway's breaker with no timer pending. -/
def gatewayWorld : World := { brkr := gatewayBreaker, timers := [] }

/-- How many codes of the list are 2xx codes. -/
def successes (codes : List Int) : Nat := codes.countP (fun c => decide (IsSuccess c))

/-- How many codes of the list are not 2xx codes. -/
def failures (codes : List Int) : Nat := codes.countP (fun c => !decide (IsSuccess c))

/-- The operand `GetFailedRequests` divides by: `HalfReqCounter` in status
`HALF_OPEN`, `RequestCounter` otherwise. -/
def phaseDenominator (brkr : Breaker) : Int :=
  if brkr.CurrentStatus = Status.HALF_OPEN then brkr.HalfReqCounter else brkr.RequestCounter

/-- The operand `GetFailedRequests` divides: the requests of the phase that were
not successes. -/
def phaseNumerator (brkr : Breaker) : Int :=
  if brkr.CurrentStatus = Status.HALF_OPEN then brkr.HalfReqCounter - brkr.HalfSucCounter
  else brkr.RequestCounter - brkr.SuccessCounter

/-- A half-open breaker with a trial count of four and threshold `0.5`, at the
start of a batch; it tripped on its third request. -/
def halfOpenTrial : World :=
  { brkr := { gatewayBreaker with
              CurrentStatus := Status.HALF_OPEN, MaxHalfOpenReqs := 4
              RequestCounter := 3, SuccessCounter := 2 }
    timers := [] }

/-- A call a request handler makes on the breaker. -/
inductive Call where
  | allowFlow
  | updateStatus (respCode : Int)
  deriving DecidableEq

/-- Perform one call: the state after it and, for `AllowFlow`, the answer. -/
def perform (w : World) : Call → World × List Bool
  | Call.allowFlow => ({ w with brkr := (AllowFlow w.brkr).2 }, [(AllowFlow w.brkr).1])
  | Call.updateStatus respCode => (step w (Event.update respCode), [])

/-- Perform a sequence of calls, collecting the answers of the `AllowFlow`
calls in order. -/
def performAll (w : World) : List Call → World × List Bool
  | [] => (w, [])
  | c :: cs =>
    ((performAll (perform w c).1 cs).1, (perform w c).2 ++ (performAll (perform w c).1 cs).2)

/-- A closed breaker on which a timer is still pending. -/
def closedWithTimer : World :=
  { brkr := { gatewayBreaker with RequestCounter := 5, SuccessCounter := 5 }
    timers := [Status.HALF_OPEN] }

/-! ## The gateway's handler (`main.go`) -/

/-- `http.StatusOK`. -/
def StatusOK : Int := 200

/-- `http.StatusServiceUnavailable`. -/
def StatusServiceUnavailable : Int := 503

/-- A call on an `http.ResponseWriter`. -/
inductive WriterCall where
  | WriteHeader (status : Int)
  | Write (data : String)
  deriving DecidableEq

/-- `type statusRecorder struct`: the embedded `http.ResponseWriter`, given by
the calls that reached it so far, and the recorded status code. -/
structure statusRecorder where
  ResponseWriter : List WriterCall
  statusCode : Int
  deriving DecidableEq

/-- `func (r *statusRecorder) WriteHeader(status int)`. -/
def statusRecorder.WriteHeader (r : statusRecorder) (status : Int) : statusRecorder :=
  let r := { r with statusCode := status }
  { r with ResponseWriter := r.ResponseWriter ++ [WriterCall.WriteHeader status] }

/-- The call `next.ServeHTTP(recorder, r)`.  The wrapped handler is given by the
calls it makes, on this request, on the writer it is handed, and it returns;
`WriteHeader` is the recorder's method, `Write` is promoted from the embedded
writer. -/
def ServeHTTP (next : List WriterCall) (recorder : statusRecorder) : statusRecorder :=
  next.foldl
    (fun r call =>
      match call with
      | WriterCall.WriteHeader status => r.WriteHeader status
      | WriterCall.Write data =>
        { r with ResponseWriter := r.ResponseWriter ++ [WriterCall.Write data] })
    recorder

/-- The arguments of the handler's `log.Printf` call. -/
structure LogLine where
  servicePath : String
  statusCode : Int
  circuit : Status
  failureRate : Float64
  deriving DecidableEq

/-- What one run of the handler did: the route's breaker afterwards, the timers
started, the calls made on the writer `w`, how often `next.ServeHTTP` and with
which arguments `UpdateStatus` were called, and what was logged. -/
structure Served where
  brkr : Breaker
  timers : List Status
  w : List WriterCall
  forwarded : Nat
  recorded : List Int
  logged : List LogLine
  deriving DecidableEq

/-- The handler `createCircuitBreakerHandler(servicePath, next)` returns, run on
one request; `b` is the route's breaker `serviceBreakers[servicePath]`. -/
def createCircuitBreakerHandler (servicePath : String) (next : List WriterCall)
    (b : Breaker) : Served :=
  if (AllowFlow b).1 = false then
    { brkr := (AllowFlow b).2
      timers := []
      w := [WriterCall.WriteHeader StatusServiceUnavailable,
            WriterCall.Write
              ("Service temporarily unavailable. Circuit is OPEN for " ++ servicePath)]
      forwarded := 0
      recorded := []
      logged := [] }
  else
    let b := (AllowFlow b).2
    let recorder : statusRecorder := { ResponseWriter := [], statusCode := StatusOK }
    let recorder := ServeHTTP next recorder
    let updated := UpdateStatus b recorder.statusCode
    let rate := GetFailedRequests updated.1
    { brkr := rate.2
      timers := updated.2
      w := recorder.ResponseWriter
      forwarded := 1
      recorded := [recorder.statusCode]
      logged := [{ servicePath := servicePath
                   statusCode := recorder.statusCode
                   circuit := updated.1.CurrentStatus
                   failureRate := Float64.mul rate.1 (Float64.finite 100) }] }

/-- The status of the last `WriteHeader` call among the given calls. -/
def lastHeader (calls : List WriterCall) : Option Int :=
  (calls.filterMap
    (fun call =>
      match call with
      | WriterCall.WriteHeader status => some status
      | WriterCall.Write _ => none)).getLast?

/-! ## Goroutines inside `UpdateStatus` -/

/-- Where a goroutine running `UpdateStatus(respCode)` stands: the statement it
executes next.  An increment `x++` is a load followed by a store of the loaded
value plus one.  No statement of `UpdateStatus` takes `statusUpdateLock`, so no
step waits for another goroutine. -/
inductive Pc where
  | switchStatus
  | loadRequestCounter
  | storeRequestCounter (loaded : Int)
  | testCode
  | loadSuccessCounter
  | storeSuccessCounter (loaded : Int)
  | setOpen
  | goTimer
  | loadHalfReqCounter
  | storeHalfReqCounter (loaded : Int)
  | testCodeHalf
  | loadHalfSucCounter
  | storeHalfSucCounter (loaded : Int)
  | testBatch
  | testRate
  | setOpenAgain
  | setClose
  | resetRequestCounter
  | resetSuccessCounter
  | resetHalfReqCounter
  | resetHalfSucCounter
  | done
  deriving DecidableEq

/-- One statement of `UpdateStatus(respCode)`, executed on the shared breaker. -/
def microStep (w : World) (respCode : Int) : Pc → World × Pc
  | Pc.switchStatus =>
    match w.brkr.CurrentStatus with
    | Status.CLOSE => (w, Pc.loadRequestCounter)
    | Status.HALF_OPEN => (w, Pc.loadHalfReqCounter)
    | Status.OPEN => (w, Pc.done)
  | Pc.loadRequestCounter => (w, Pc.storeRequestCounter w.brkr.RequestCounter)
  | Pc.storeRequestCounter loaded =>
    ({ w with brkr := { w.brkr with RequestCounter := loaded + 1 } }, Pc.testCode)
  | Pc.testCode =>
    (w, if Int.tdiv respCode 100 = 2 then Pc.loadSuccessCounter else Pc.setOpen)
  | Pc.loadSuccessCounter => (w, Pc.storeSuccessCounter w.brkr.SuccessCounter)
  | Pc.storeSuccessCounter loaded =>
    ({ w with brkr := { w.brkr with SuccessCounter := loaded + 1 } }, Pc.done)
  | Pc.setOpen => ({ w with brkr := { w.brkr with CurrentStatus := Status.OPEN } }, Pc.goTimer)
  | Pc.goTimer => ({ w with timers := w.timers ++ [Status.HALF_OPEN] }, Pc.done)
  | Pc.loadHalfReqCounter => (w, Pc.storeHalfReqCounter w.brkr.HalfReqCounter)
  | Pc.storeHalfReqCounter loaded =>
    ({ w with brkr := { w.brkr with HalfReqCounter := loaded + 1 } }, Pc.testCodeHalf)
  | Pc.testCodeHalf =>
    (w, if Int.tdiv respCode 100 = 2 then Pc.loadHalfSucCounter else Pc.testBatch)
  | Pc.loadHalfSucCounter => (w, Pc.storeHalfSucCounter w.brkr.HalfSucCounter)
  | Pc.storeHalfSucCounter loaded =>
    ({ w with brkr := { w.brkr with HalfSucCounter := loaded + 1 } }, Pc.testBatch)
  | Pc.testBatch =>
    (w, if w.brkr.HalfReqCounter ≥ w.brkr.MaxHalfOpenReqs then Pc.testRate else Pc.done)
  | Pc.testRate =>
    ({ w with brkr := (GetFailedRequests w.brkr).2 },
      if Float64.ge (GetFailedRequests w.brkr).1 w.brkr.FailureThreshold then Pc.setOpenAgain
      else Pc.setClose)
  | Pc.setOpenAgain =>
    ({ w with brkr := { w.brkr with CurrentStatus := Status.OPEN } }, Pc.resetHalfReqCounter)
  | Pc.setClose =>
    ({ w with brkr := { w.brkr with CurrentStatus := Status.CLOSE } }, Pc.resetRequestCounter)
  | Pc.resetRequestCounter =>
    ({ w with brkr := { w.brkr with RequestCounter := 0 } }, Pc.resetSuccessCounter)
  | Pc.resetSuccessCounter =>
    ({ w with brkr := { w.brkr with SuccessCounter := 0 } }, Pc.resetHalfReqCounter)
  | Pc.resetHalfReqCounter =>
    ({ w with brkr := { w.brkr with HalfReqCounter := 0 } }, Pc.resetHalfSucCounter)
  | Pc.resetHalfSucCounter =>
    ({ w with brkr := { w.brkr with HalfSucCounter := 0 } }, Pc.done)
  | Pc.done => (w, Pc.done)

/-- A goroutine running `UpdateStatus(respCode)` on its own for `n` statements. -/
def runAlone (respCode : Int) : Nat → World × Pc → World × Pc
  | 0, s => s
  | n + 1, s => runAlone respCode n (microStep s.1 respCode s.2)

/-- A goroutine of a request handler inside `UpdateStatus(respCode)`. -/
structure Goroutine where
  respCode : Int
  pc : Pc
  deriving DecidableEq

/-- The goroutine at position `i` executes its next statement. -/
def sched (s : World × List Goroutine) (i : Nat) : World × List Goroutine :=
  match s.2.get? i with
  | some g =>
    ((microStep s.1 g.respCode g.pc).1,
      s.2.set i { g with pc := (microStep s.1 g.respCode g.pc).2 })
  | none => s

/-- Run the goroutines in the order the schedule gives. -/
def interleave (s : World × List Goroutine) (schedule : List Nat) : World × List Goroutine :=
  schedule.foldl sched s

/-! ## Machine integers -/

/-- The largest value of Go's `int` on a 64-bit platform. -/
def MaxInt64 : Int := 9223372036854775807

/-- The smallest value of Go's `int` on a 64-bit platform. -/
def MinInt64 : Int := -9223372036854775808

/-- The `int` an integer result is stored as: two's complement wrap-around at
64 bits. -/
def wrap64 (x : Int) : Int :=
  (x + 9223372036854775808) % 18446744073709551616 - 9223372036854775808

/-- The integers that are values of `int`. -/
def IsInt64 (x : Int) : Prop := MinInt64 ≤ x ∧ x ≤ MaxInt64

instance (x : Int) : Decidable (IsInt64 x) := by
  unfold IsInt64; infer_instance

/-- `func (brkr *Breaker) GetFailedRequests() float64` on machine integers: the
subtraction wraps. -/
def GetFailedRequests64 (brkr : Breaker) : Float64 × Breaker :=
  if brkr.CurrentStatus = Status.HALF_OPEN then
    (Float64.div (Float64.ofInt (wrap64 (brkr.HalfReqCounter - brkr.HalfSucCounter)))
      (Float64.ofInt brkr.HalfReqCounter), brkr)
  else
    (Float64.div (Float64.ofInt (wrap64 (brkr.RequestCounter - brkr.SuccessCounter)))
      (Float64.ofInt brkr.RequestCounter), brkr)

/-- `func (brkr *Breaker) UpdateStatus(respCode int)` on machine integers: each
increment wraps.  It is `UpdateStatus` statement by statement, and equal to it
as long as the counters are non-negative and below the largest `int`
(`updateStatus64_eq`). -/
def UpdateStatus64 (brkr : Breaker) (respCode : Int) : Breaker × List Status :=
  match brkr.CurrentStatus with
  | Status.CLOSE =>
    let brkr := { brkr with RequestCounter := wrap64 (brkr.RequestCounter + 1) }
    if Int.tdiv respCode 100 = 2 then
      ({ brkr with SuccessCounter := wrap64 (brkr.SuccessCounter + 1) }, [])
    else
      ({ brkr with CurrentStatus := Status.OPEN }, [Status.HALF_OPEN])
  | Status.HALF_OPEN =>
    let brkr := { brkr with HalfReqCounter := wrap64 (brkr.HalfReqCounter + 1) }
    let brkr :=
      if Int.tdiv respCode 100 = 2 then
        { brkr with HalfSucCounter := wrap64 (brkr.HalfSucCounter + 1) }
      else brkr
    if brkr.HalfReqCounter ≥ brkr.MaxHalfOpenReqs then
      let brkr :=
        if Float64.ge (GetFailedRequests64 brkr).1 brkr.FailureThreshold then
          { (GetFailedRequests64 brkr).2 with CurrentStatus := Status.OPEN }
        else
          { (GetFailedRequests64 brkr).2 with
            CurrentStatus := Status.CLOSE, RequestCounter := 0, SuccessCounter := 0 }
      ({ brkr with HalfReqCounter := 0, HalfSucCounter := 0 }, [])
    else
      (brkr, [])
  | Status.OPEN => (brkr, [])

/-- The counters of the breaker are values of `int`. -/
def CountersInt64 (brkr : Breaker) : Prop :=
  IsInt64 brkr.RequestCounter ∧ IsInt64 brkr.SuccessCounter ∧
    IsInt64 brkr.HalfReqCounter ∧ IsInt64 brkr.HalfSucCounter ∧
    IsInt64 brkr.MaxHalfOpenReqs

/-- No counter of the breaker is negative or at the largest `int`. -/
def CountersBelowMax (brkr : Breaker) : Prop :=
  (0 ≤ brkr.RequestCounter ∧ brkr.RequestCounter < MaxInt64) ∧
    (0 ≤ brkr.SuccessCounter ∧ brkr.SuccessCounter < MaxInt64) ∧
    (0 ≤ brkr.HalfReqCounter ∧ brkr.HalfReqCounter < MaxInt64) ∧
    (0 ≤ brkr.HalfSucCounter ∧ brkr.HalfSucCounter < MaxInt64)

/-- A closed breaker whose request counter is at the largest `int`. -/
def closedAtMax : Breaker :=
  { gatewayBreaker with RequestCounter := 9223372036854775807, SuccessCounter := 12 }

/-! ## Basic facts about the operations -/

theorem tdiv_hundred_eq_two_iff (respCode : Int) :
    Int.tdiv respCode 100 = 2 ↔ IsSuccess respCode := by
  unfold IsSuccess
  rcases le_or_lt 0 respCode with h | h
  · rw [Int.tdiv_eq_ediv h (by decide)]; omega
  · have h1 : respCode = -(-respCode) := by omega
    have h2 : (0 : Int) ≤ -respCode := by omega
    rw [h1, Int.neg_tdiv, Int.tdiv_eq_ediv h2 (by decide)]; omega

theorem getFailedRequests_snd (brkr : Breaker) : (GetFailedRequests brkr).2 = brkr := by
  unfold GetFailedRequests; split <;> rfl

theorem getFailedRequests_halfOpen (brkr : Breaker)
    (h : brkr.CurrentStatus = Status.HALF_OPEN) :
    (GetFailedRequests brkr).1 = halfOpenRate brkr := by
  unfold GetFailedRequests halfOpenRate; rw [if_pos h]

theorem updateStatus_open (brkr : Breaker) (respCode : Int)
    (h : brkr.CurrentStatus = Status.OPEN) : UpdateStatus brkr respCode = (brkr, []) := by
  unfold UpdateStatus; rw [h]

theorem updateStatus_close (brkr : Breaker) (respCode : Int)
    (h : brkr.CurrentStatus = Status.CLOSE) :
    UpdateStatus brkr respCode =
      if Int.tdiv respCode 100 = 2 then
        ({ brkr with RequestCounter := brkr.RequestCounter + 1
                     SuccessCounter := brkr.SuccessCounter + 1 }, [])
      else
        ({ brkr with RequestCounter := brkr.RequestCounter + 1
                     CurrentStatus := Status.OPEN }, [Status.HALF_OPEN]) := by
  unfold UpdateStatus; rw [h]

theorem updateStatus_halfOpen (brkr : Breaker) (respCode : Int)
    (h : brkr.CurrentStatus = Status.HALF_OPEN) :
    UpdateStatus brkr respCode =
      if (halfOpenTally brkr respCode).HalfReqCounter ≥ brkr.MaxHalfOpenReqs then
        if Float64.ge (halfOpenRate (halfOpenTally brkr respCode)) brkr.FailureThreshold then
          ({ brkr with CurrentStatus := Status.OPEN, HalfReqCounter := 0, HalfSucCounter := 0 }, [])
        else
          ({ brkr with CurrentStatus := Status.CLOSE, RequestCounter := 0, SuccessCounter := 0,
                       HalfReqCounter := 0, HalfSucCounter := 0 }, [])
      else
        (halfOpenTally brkr respCode, []) := by
  obtain ⟨thr, st, rc, hrc, sc, hsc, m, ot, hot⟩ := brkr
  simp only at h
  subst h
  by_cases hc : Int.tdiv respCode 100 = 2
  · simp only [UpdateStatus, halfOpenTally, halfOpenRate, GetFailedRequests, hc, if_true]
    split_ifs <;> rfl
  · simp only [UpdateStatus, halfOpenTally, halfOpenRate, GetFailedRequests, hc, if_false,
      add_zero]
    split_ifs <;> rfl

theorem step_update (w : World) (respCode : Int) :
    step w (Event.update respCode) =
      { brkr := (UpdateStatus w.brkr respCode).1
        timers := w.timers ++ (UpdateStatus w.brkr respCode).2 } := rfl

theorem run_nil (w : World) : run w [] = w := rfl

theorem run_cons (w : World) (ev : Event) (evs : List Event) :
    run w (ev :: evs) = run (step w ev) evs := rfl

theorem run_append (w : World) (evs evs2 : List Event) :
    run w (evs ++ evs2) = run (run w evs) evs2 := by
  simp [run, List.foldl_append]

theorem inv_init (failThresh : Float64) (brkr : Breaker)
    (h : NewBreaker failThresh = Except.ok brkr) : Inv { brkr := brkr, timers := [] } := by
  unfold NewBreaker at h
  split at h
  · cases h
  · cases h
    simp [Inv, zeroValue]

theorem inv_step (w : World) (ev : Event) (h : Inv w) : Inv (step w ev) := by
  obtain ⟨ht, hc, hm, hr, hs, h0, h1⟩ := h
  cases ev with
  | update c =>
    rw [step_update]
    cases hst : w.brkr.CurrentStatus with
    | OPEN =>
      rw [updateStatus_open _ _ hst, List.append_nil]
      exact ⟨ht, hc, hm, hr, hs, h0, h1⟩
    | CLOSE =>
      have hrs := hc hst
      have htn : w.timers = [] := by simpa [hst] using ht
      rw [updateStatus_close _ _ hst, htn]
      split_ifs
      · refine ⟨Or.inl rfl, fun _ => ?_, hm, hr, hs, ?_, ?_⟩ <;> dsimp only <;> omega
      · refine ⟨Or.inr ⟨rfl, rfl⟩, fun hh => (by cases hh), hm, hr, hs, h0, ?_⟩
        dsimp only; omega
    | HALF_OPEN =>
      have htn : w.timers = [] := by simpa [hst] using ht
      rw [updateStatus_halfOpen _ _ hst, htn]
      have hge : (halfOpenTally w.brkr c).HalfReqCounter ≥ w.brkr.MaxHalfOpenReqs := by
        simp only [halfOpenTally]; omega
      rw [if_pos hge]
      split_ifs
      · exact ⟨Or.inl rfl, fun hh => (by cases hh), hm, rfl, rfl, h0, h1⟩
      · exact ⟨Or.inl rfl, fun _ => rfl, hm, rfl, rfl, le_refl _, le_refl _⟩
  | fire i =>
    rcases ht with ht | ⟨hst, ht⟩
    · have e : step w (Event.fire i) = w := by simp [step, ht]
      rw [e]
      exact ⟨Or.inl ht, hc, hm, hr, hs, h0, h1⟩
    · cases i with
      | zero =>
        have e : step w (Event.fire 0) = { brkr := Timer w.brkr Status.HALF_OPEN, timers := [] } := by
          simp [step, ht]
        rw [e]
        exact ⟨Or.inl rfl, fun hh => (by cases hh), hm, hr, hs, h0, h1⟩
      | succ n =>
        have e : step w (Event.fire (n + 1)) = w := by simp [step, ht]
        rw [e]
        exact ⟨Or.inr ⟨hst, ht⟩, hc, hm, hr, hs, h0, h1⟩

theorem inv_run (evs : List Event) (w : World) (h : Inv w) : Inv (run w evs) := by
  induction evs generalizing w with
  | nil => exact h
  | cons ev evs ih => exact ih _ (inv_step w ev h)

theorem inv_of_reachable (w : World) (h : Reachable w) : Inv w := by
  obtain ⟨t, b, evs, hb, rfl⟩ := h
  exact inv_run evs _ (inv_init t b hb)

theorem reachable_run (w : World) (evs : List Event) (h : Reachable w) :
    Reachable (run w evs) := by
  obtain ⟨t, b, evs0, hb, rfl⟩ := h
  exact ⟨t, b, evs0 ++ evs, hb, (run_append _ _ _).symm⟩

theorem successes_add_failures (codes : List Int) :
    successes codes + failures codes = codes.length := by
  induction codes with
  | nil => rfl
  | cons c cs ih =>
    unfold successes failures at *
    rw [List.countP_cons, List.countP_cons, List.length_cons]
    by_cases h : IsSuccess c <;> simp [h] <;> omega

theorem halfOpenTally_succ (brkr : Breaker) (c : Int) :
    (halfOpenTally brkr c).HalfSucCounter = brkr.HalfSucCounter + successes [c] := by
  unfold halfOpenTally successes
  by_cases h : Int.tdiv c 100 = 2
  · have := (tdiv_hundred_eq_two_iff c).1 h
    simp [h, this]
  · have : ¬ IsSuccess c := fun hh => h ((tdiv_hundred_eq_two_iff c).2 hh)
    simp [h, this]

theorem successes_cons (c : Int) (cs : List Int) :
    successes (c :: cs) = successes [c] + successes cs := by
  unfold successes
  rw [List.countP_cons, List.countP_cons, List.countP_nil]; omega

theorem run_midBatch (codes : List Int) (w : World)
    (hst : w.brkr.CurrentStatus = Status.HALF_OPEN)
    (hlt : w.brkr.HalfReqCounter + codes.length < w.brkr.MaxHalfOpenReqs) :
    run w (codes.map Event.update) =
      { brkr := { w.brkr with
                  HalfReqCounter := w.brkr.HalfReqCounter + codes.length
                  HalfSucCounter := w.brkr.HalfSucCounter + successes codes }
        timers := w.timers } := by
  induction codes generalizing w with
  | nil => simp [run, successes]
  | cons c cs ih =>
    have hnot : ¬ (halfOpenTally w.brkr c).HalfReqCounter ≥ w.brkr.MaxHalfOpenReqs := by
      simp only [halfOpenTally, List.length_cons] at *; push_cast at hlt; omega
    have hstep : step w (Event.update c) =
        { brkr := halfOpenTally w.brkr c, timers := w.timers } := by
      rw [step_update, updateStatus_halfOpen _ _ hst, if_neg hnot, List.append_nil]
    rw [List.map_cons, run_cons, hstep]
    rw [ih { brkr := halfOpenTally w.brkr c, timers := w.timers } hst
      (by simp only [halfOpenTally, List.length_cons] at *; push_cast at hlt; omega)]
    have e1 := halfOpenTally_succ w.brkr c
    simp only [successes_cons c cs, List.length_cons]
    simp only [e1]
    simp only [halfOpenTally]
    congr 2 <;> push_cast <;> ring

theorem successes_append (xs ys : List Int) :
    successes (xs ++ ys) = successes xs + successes ys := by
  unfold successes; rw [List.countP_append]

theorem step_endOfBatch (w : World) (c : Int)
    (hst : w.brkr.CurrentStatus = Status.HALF_OPEN)
    (hge : w.brkr.MaxHalfOpenReqs ≤ w.brkr.HalfReqCounter + 1) :
    step w (Event.update c) =
      if Float64.ge (halfOpenRate (halfOpenTally w.brkr c)) w.brkr.FailureThreshold then
        { brkr := { w.brkr with
                    CurrentStatus := Status.OPEN, HalfReqCounter := 0, HalfSucCounter := 0 }
          timers := w.timers }
      else
        { brkr := { w.brkr with
                    CurrentStatus := Status.CLOSE, RequestCounter := 0, SuccessCounter := 0,
                    HalfReqCounter := 0, HalfSucCounter := 0 }
          timers := w.timers } := by
  have h : (halfOpenTally w.brkr c).HalfReqCounter ≥ w.brkr.MaxHalfOpenReqs := hge
  rw [step_update, updateStatus_halfOpen _ _ hst, if_pos h]
  split_ifs <;> simp

theorem run_fullBatch (codes : List Int) (w : World)
    (hst : w.brkr.CurrentStatus = Status.HALF_OPEN)
    (hr : w.brkr.HalfReqCounter = 0) (hs : w.brkr.HalfSucCounter = 0)
    (hM : w.brkr.MaxHalfOpenReqs = codes.length) (h1 : 1 ≤ codes.length) :
    run w (codes.map Event.update) =
      if Float64.ge (Float64.div (Float64.ofInt (failures codes)) (Float64.ofInt codes.length))
          w.brkr.FailureThreshold then
        { brkr := { w.brkr with
                    CurrentStatus := Status.OPEN, HalfReqCounter := 0, HalfSucCounter := 0 }
          timers := w.timers }
      else
        { brkr := { w.brkr with
                    CurrentStatus := Status.CLOSE, RequestCounter := 0, SuccessCounter := 0,
                    HalfReqCounter := 0, HalfSucCounter := 0 }
          timers := w.timers } := by
  rcases List.eq_nil_or_concat codes with rfl | ⟨init, last, rfl⟩
  · simp at h1
  · rw [List.concat_eq_append] at hM h1 ⊢
    have hlen : ((init ++ [last]).length : Int) = init.length + 1 := by simp
    have hsf := successes_add_failures (init ++ [last])
    have hsa := successes_append init [last]
    have hmid := run_midBatch init w hst (by rw [hr, hM, hlen]; omega)
    have hend := step_endOfBatch (run w (init.map Event.update)) last
      (by rw [hmid]; exact hst) (by rw [hmid]; simp only []; rw [hr, hM, hlen]; omega)
    have hrate : halfOpenRate (halfOpenTally (run w (init.map Event.update)).brkr last)
        = Float64.div (Float64.ofInt (failures (init ++ [last])))
            (Float64.ofInt (init ++ [last]).length) := by
      have e1 : (halfOpenTally (run w (init.map Event.update)).brkr last).HalfReqCounter
          = ((init ++ [last]).length : Int) := by
        rw [hmid]; simp only [halfOpenTally]; rw [hr, hlen]; omega
      have e2 : (halfOpenTally (run w (init.map Event.update)).brkr last).HalfSucCounter
          = (successes (init ++ [last]) : Int) := by
        rw [halfOpenTally_succ, hsa, hmid]; simp only []; rw [hs]; push_cast; omega
      unfold halfOpenRate
      rw [e1, e2]
      congr 2
      omega
    rw [List.map_append, run_append, List.map_cons, List.map_nil, run_cons, run_nil, hend, hrate,
      hmid]

/-! ## Gating and construction -/

/-- C1: `AllowFlow` answers true exactly for the statuses `CLOSE` and
`HALF_OPEN`, false exactly for `OPEN`, and hands the breaker back with every
field as it was. -/
theorem allowFlow_spec (brkr : Breaker) :
    ((AllowFlow brkr).1 = true ↔
        (brkr.CurrentStatus = Status.CLOSE ∨ brkr.CurrentStatus = Status.HALF_OPEN)) ∧
      ((AllowFlow brkr).1 = false ↔ brkr.CurrentStatus = Status.OPEN) ∧
      (AllowFlow brkr).2 = brkr := by
  unfold AllowFlow
  cases h : brkr.CurrentStatus <;> simp

/-- C2, counterexample: the threshold `2` is greater than `1`, outside `(0,1]`,
and `NewBreaker` still returns a breaker for it. -/
theorem newBreaker_accepts_two :
    Float64.gt (Float64.finite 2) (Float64.finite 1) = true ∧
      NewBreaker (Float64.finite 2) =
        Except.ok
          { FailureThreshold := Float64.finite 2
            CurrentStatus := Status.CLOSE
            RequestCounter := 0
            HalfReqCounter := 0
            SuccessCounter := 0
            HalfSucCounter := 0
            MaxHalfOpenReqs := 0
            OpenTimer := 10000000000
            HalfOpenTimer := 20000000000 } := by
  refine ⟨by simp [Float64.gt, Float64.lt], ?_⟩
  simp [NewBreaker, Float64.le, zeroValue, Second]

/-- C2, amended: `NewBreaker` returns an error, and no breaker, exactly when
`failThresh <= 0` holds, and returns a breaker exactly when it does not; so it
returns one for every threshold greater than zero, those above one included. -/
theorem newBreaker_error_iff (failThresh : Float64) :
    ((∃ msg, NewBreaker failThresh = Except.error msg) ↔
        Float64.le failThresh (Float64.finite 0) = true) ∧
      ((∃ brkr, NewBreaker failThresh = Except.ok brkr) ↔
        Float64.le failThresh (Float64.finite 0) = false) ∧
      (Float64.gt failThresh (Float64.finite 0) = true →
        ∃ brkr, NewBreaker failThresh = Except.ok brkr) := by
  have hgt : Float64.gt failThresh (Float64.finite 0) = true →
      Float64.le failThresh (Float64.finite 0) = false := by
    cases failThresh <;> simp [Float64.gt, Float64.lt, Float64.le]
  unfold NewBreaker
  cases h : Float64.le failThresh (Float64.finite 0)
  · simp
  · refine ⟨by simp, by simp, fun h0 => ?_⟩
    have := hgt h0
    simp [h] at this

/-- C3: the breaker `NewBreaker(0.5)` returns has `MaxHalfOpenReqs = 0`; no
statement of `NewBreaker` assigns the field. -/
theorem newBreaker_maxHalfOpenReqs_zero :
    (NewBreaker (Float64.finite (1 / 2))).map (fun brkr => brkr.MaxHalfOpenReqs)
      = Except.ok 0 := by
  have h : ¬ Float64.le (Float64.finite (1 / 2)) (Float64.finite 0) = true := by
    simp [Float64.le]
  rw [NewBreaker, if_neg h]
  rfl

/-- C4: for every threshold `NewBreaker` accepts, the breaker it returns is in
status `CLOSE`, has its four counters at zero and carries the threshold it was
given. -/
theorem newBreaker_initial (failThresh : Float64)
    (h : Float64.le failThresh (Float64.finite 0) = false) :
    ∃ brkr, NewBreaker failThresh = Except.ok brkr ∧
      brkr.CurrentStatus = Status.CLOSE ∧
      brkr.RequestCounter = 0 ∧ brkr.SuccessCounter = 0 ∧
      brkr.HalfReqCounter = 0 ∧ brkr.HalfSucCounter = 0 ∧
      brkr.FailureThreshold = failThresh := by
  simp [NewBreaker, h, zeroValue]

/-- C4, at the threshold `0.5` the gateway uses. -/
theorem newBreaker_initial_witness :
    Float64.le (Float64.finite (1 / 2)) (Float64.finite 0) = false ∧
      ∃ brkr, NewBreaker (Float64.finite (1 / 2)) = Except.ok brkr ∧
        brkr.CurrentStatus = Status.CLOSE ∧
        brkr.RequestCounter = 0 ∧ brkr.SuccessCounter = 0 ∧
        brkr.HalfReqCounter = 0 ∧ brkr.HalfSucCounter = 0 ∧
        brkr.FailureThreshold = Float64.finite (1 / 2) :=
  ⟨by simp [Float64.le], newBreaker_initial (Float64.finite (1 / 2)) (by simp [Float64.le])⟩

/-! ## Recording outcomes while closed -/

theorem newBreaker_half : NewBreaker (Float64.finite (1 / 2)) = Except.ok gatewayBreaker := by
  have h : ¬ Float64.le (Float64.finite (1 / 2)) (Float64.finite 0) = true := by
    simp [Float64.le]
  rw [NewBreaker, if_neg h]
  rfl

theorem reachable_gatewayWorld : Reachable gatewayWorld :=
  ⟨Float64.finite (1 / 2), gatewayBreaker, [], newBreaker_half, rfl⟩

theorem run_successes (codes : List Int) (w : World)
    (hc : w.brkr.CurrentStatus = Status.CLOSE)
    (hs : ∀ c ∈ codes, IsSuccess c) :
    (run w (codes.map Event.update)).brkr.CurrentStatus = Status.CLOSE ∧
      (run w (codes.map Event.update)).brkr.RequestCounter
        = w.brkr.RequestCounter + codes.length ∧
      (run w (codes.map Event.update)).brkr.SuccessCounter
        = w.brkr.SuccessCounter + codes.length := by
  induction codes generalizing w with
  | nil => simp [run, hc]
  | cons c cs ih =>
    have hcs : Int.tdiv c 100 = 2 :=
      (tdiv_hundred_eq_two_iff c).2 (hs c (List.mem_cons_self c cs))
    have hstep : (step w (Event.update c)).brkr =
        { w.brkr with RequestCounter := w.brkr.RequestCounter + 1
                      SuccessCounter := w.brkr.SuccessCounter + 1 } := by
      rw [step_update, updateStatus_close _ _ hc, if_pos hcs]
    have ih2 := ih (step w (Event.update c)) (by rw [hstep]; exact hc)
      (fun x hx => hs x (List.mem_cons_of_mem c hx))
    rw [List.map_cons, run_cons]
    rw [hstep] at ih2
    refine ⟨ih2.1, ?_, ?_⟩
    · rw [ih2.2.1]; simp only [List.length_cons]; push_cast; ring
    · rw [ih2.2.2]; simp only [List.length_cons]; push_cast; ring

/-- C5: from any reachable state whose status is `CLOSE`, after each of the
calls of a sequence of `UpdateStatus` calls with 2xx codes (after the first `n`
of them, for every `n`), the status is `CLOSE`, `RequestCounter` equals
`SuccessCounter`, and both have grown by exactly `n`. -/
theorem closed_successes_stay_closed (w : World) (codes : List Int) (n : Nat)
    (hw : Reachable w) (hc : w.brkr.CurrentStatus = Status.CLOSE)
    (hs : ∀ c ∈ codes, IsSuccess c) (hn : n ≤ codes.length) :
    (run w ((codes.take n).map Event.update)).brkr.CurrentStatus = Status.CLOSE ∧
      (run w ((codes.take n).map Event.update)).brkr.RequestCounter
        = (run w ((codes.take n).map Event.update)).brkr.SuccessCounter ∧
      (run w ((codes.take n).map Event.update)).brkr.RequestCounter
        = w.brkr.RequestCounter + n ∧
      (run w ((codes.take n).map Event.update)).brkr.SuccessCounter
        = w.brkr.SuccessCounter + n := by
  have hlen : (codes.take n).length = n := by
    rw [List.length_take]; omega
  have hrs : w.brkr.RequestCounter = w.brkr.SuccessCounter := (inv_of_reachable w hw).2.1 hc
  obtain ⟨h1, h2, h3⟩ := run_successes (codes.take n) w hc
    (fun c hcm => hs c (List.mem_of_mem_take hcm))
  rw [hlen] at h2 h3
  exact ⟨h1, by rw [h2, h3, hrs], h2, h3⟩

/-- C5, on the gateway's new breaker and the codes `200, 204, 299`, after the
second call. -/
theorem closed_successes_stay_closed_witness :
    (run gatewayWorld (([200, 204, 299].take 2).map Event.update)).brkr.CurrentStatus
        = Status.CLOSE ∧
      (run gatewayWorld (([200, 204, 299].take 2).map Event.update)).brkr.RequestCounter
        = (run gatewayWorld (([200, 204, 299].take 2).map Event.update)).brkr.SuccessCounter ∧
      (run gatewayWorld (([200, 204, 299].take 2).map Event.update)).brkr.RequestCounter
        = gatewayWorld.brkr.RequestCounter + (2 : Nat) ∧
      (run gatewayWorld (([200, 204, 299].take 2).map Event.update)).brkr.SuccessCounter
        = gatewayWorld.brkr.SuccessCounter + (2 : Nat) :=
  closed_successes_stay_closed gatewayWorld [200, 204, 299] 2 reachable_gatewayWorld rfl
    (by decide) (by decide)

/-! ## Re-opening, the half-open batch, the failure rate -/

theorem float64_ge_false_of_lt (x y : Float64) (h : Float64.lt x y = true) :
    Float64.ge x y = false := by
  cases x <;> cases y <;> simp_all [Float64.lt, Float64.ge, Float64.le]

theorem float64_ofInt_zero : Float64.ofInt 0 = Float64.finite 0 := by
  simp [Float64.ofInt, Float64.roundNearest]

theorem float64_div_zero_not_finite (x : Float64) (q : ℚ) :
    Float64.div x (Float64.finite 0) ≠ Float64.finite q := by
  cases x with
  | nan => simp [Float64.div]
  | negInf => simp [Float64.div]
  | posInf => simp [Float64.div]
  | finite a =>
    simp only [Float64.div, if_true]
    split_ifs <;> simp

/-- C7: the gateway's breaker trips on a 500 and one timer is pending; the timer
fires; the single half-open trial fails.  The breaker is `OPEN` again and no
timer is pending: the `HALF_OPEN` case of `UpdateStatus` starts none, unlike
the `CLOSE` case. -/
theorem reopen_starts_no_timer :
    run gatewayWorld [Event.update 500]
        = { brkr := { gatewayBreaker with CurrentStatus := Status.OPEN, RequestCounter := 1 }
            timers := [Status.HALF_OPEN] } ∧
      run gatewayWorld [Event.update 500, Event.fire 0]
        = { brkr := { gatewayBreaker with
                      CurrentStatus := Status.HALF_OPEN, RequestCounter := 1 }
            timers := [] } ∧
      run gatewayWorld [Event.update 500, Event.fire 0, Event.update 500]
        = { brkr := { gatewayBreaker with CurrentStatus := Status.OPEN, RequestCounter := 1 }
            timers := [] } := by
  decide!

/-- C8: a breaker in status `HALF_OPEN` with both half-open counters zero and a
trial count `M >= 1` records `M` outcomes, of which `k` are failures.  If the
`float64` quotient `k / M` is below the threshold, the status is `HALF_OPEN`
after each of the first `M - 1` calls, and the `M`-th call sets it to `CLOSE`
with all four counters zero. -/
theorem halfOpen_batch_closes (w : World) (codes : List Int)
    (hst : w.brkr.CurrentStatus = Status.HALF_OPEN)
    (hr : w.brkr.HalfReqCounter = 0) (hs : w.brkr.HalfSucCounter = 0)
    (hM : w.brkr.MaxHalfOpenReqs = codes.length) (h1 : 1 ≤ codes.length)
    (hrate : Float64.lt
      (Float64.div (Float64.ofInt (failures codes)) (Float64.ofInt codes.length))
      w.brkr.FailureThreshold = true) :
    (∀ j, j < codes.length →
        (run w ((codes.take j).map Event.update)).brkr.CurrentStatus = Status.HALF_OPEN) ∧
      (run w (codes.map Event.update)).brkr.CurrentStatus = Status.CLOSE ∧
      (run w (codes.map Event.update)).brkr.RequestCounter = 0 ∧
      (run w (codes.map Event.update)).brkr.SuccessCounter = 0 ∧
      (run w (codes.map Event.update)).brkr.HalfReqCounter = 0 ∧
      (run w (codes.map Event.update)).brkr.HalfSucCounter = 0 := by
  refine ⟨fun j hj => ?_, ?_⟩
  · have hlen : (codes.take j).length = j := by rw [List.length_take]; omega
    rw [run_midBatch (codes.take j) w hst (by rw [hr, hM, hlen]; omega)]
    exact hst
  · have hge := float64_ge_false_of_lt _ _ hrate
    rw [run_fullBatch codes w hst hr hs hM h1, hge]
    exact ⟨rfl, rfl, rfl, rfl, rfl⟩

/-- C8, on `M = 4`, threshold `0.5` and the outcomes success, success, success,
failure: the failure rate is `0.25`. -/
theorem halfOpen_batch_closes_witness :
    Float64.div (Float64.ofInt (failures [200, 201, 204, 500]))
        (Float64.ofInt ([200, 201, 204, 500] : List Int).length) = Float64.finite (1 / 4) ∧
      halfOpenTrial.brkr.FailureThreshold = Float64.finite (1 / 2) ∧
      ((∀ j, j < ([200, 201, 204, 500] : List Int).length →
        (run halfOpenTrial ((([200, 201, 204, 500] : List Int).take j).map
          Event.update)).brkr.CurrentStatus = Status.HALF_OPEN) ∧
      (run halfOpenTrial ([200, 201, 204, 500].map Event.update)).brkr.CurrentStatus
        = Status.CLOSE ∧
      (run halfOpenTrial ([200, 201, 204, 500].map Event.update)).brkr.RequestCounter = 0 ∧
      (run halfOpenTrial ([200, 201, 204, 500].map Event.update)).brkr.SuccessCounter = 0 ∧
      (run halfOpenTrial ([200, 201, 204, 500].map Event.update)).brkr.HalfReqCounter = 0 ∧
      (run halfOpenTrial ([200, 201, 204, 500].map Event.update)).brkr.HalfSucCounter = 0) :=
  ⟨by decide!, rfl,
    halfOpen_batch_closes halfOpenTrial [200, 201, 204, 500] rfl rfl rfl rfl (by decide)
      (by decide!)⟩

/-- C9: a breaker in status `HALF_OPEN` with both half-open counters zero and a
trial count `M >= 1` records `M` outcomes, of which `k` are failures.  If the
`float64` quotient `k / M` is at least the threshold, the status is `HALF_OPEN`
after each of the first `M - 1` calls, and the `M`-th call sets it to `OPEN`,
puts both half-open counters back to zero and leaves `RequestCounter` and
`SuccessCounter` as they were. -/
theorem halfOpen_batch_reopens (w : World) (codes : List Int)
    (hst : w.brkr.CurrentStatus = Status.HALF_OPEN)
    (hr : w.brkr.HalfReqCounter = 0) (hs : w.brkr.HalfSucCounter = 0)
    (hM : w.brkr.MaxHalfOpenReqs = codes.length) (h1 : 1 ≤ codes.length)
    (hrate : Float64.ge
      (Float64.div (Float64.ofInt (failures codes)) (Float64.ofInt codes.length))
      w.brkr.FailureThreshold = true) :
    (∀ j, j < codes.length →
        (run w ((codes.take j).map Event.update)).brkr.CurrentStatus = Status.HALF_OPEN) ∧
      (run w (codes.map Event.update)).brkr.CurrentStatus = Status.OPEN ∧
      (run w (codes.map Event.update)).brkr.HalfReqCounter = 0 ∧
      (run w (codes.map Event.update)).brkr.HalfSucCounter = 0 ∧
      (run w (codes.map Event.update)).brkr.RequestCounter = w.brkr.RequestCounter ∧
      (run w (codes.map Event.update)).brkr.SuccessCounter = w.brkr.SuccessCounter := by
  refine ⟨fun j hj => ?_, ?_⟩
  · have hlen : (codes.take j).length = j := by rw [List.length_take]; omega
    rw [run_midBatch (codes.take j) w hst (by rw [hr, hM, hlen]; omega)]
    exact hst
  · rw [run_fullBatch codes w hst hr hs hM h1, if_pos hrate]
    exact ⟨rfl, rfl, rfl, rfl, rfl⟩

/-- C9, on `M = 4`, threshold `0.5` and the outcomes failure, failure, failure,
success: the failure rate is `0.75`. -/
theorem halfOpen_batch_reopens_witness :
    Float64.div (Float64.ofInt (failures [500, 404, 302, 200]))
        (Float64.ofInt ([500, 404, 302, 200] : List Int).length) = Float64.finite (3 / 4) ∧
      halfOpenTrial.brkr.FailureThreshold = Float64.finite (1 / 2) ∧
      ((∀ j, j < ([500, 404, 302, 200] : List Int).length →
        (run halfOpenTrial ((([500, 404, 302, 200] : List Int).take j).map
          Event.update)).brkr.CurrentStatus = Status.HALF_OPEN) ∧
      (run halfOpenTrial ([500, 404, 302, 200].map Event.update)).brkr.CurrentStatus
        = Status.OPEN ∧
      (run halfOpenTrial ([500, 404, 302, 200].map Event.update)).brkr.HalfReqCounter = 0 ∧
      (run halfOpenTrial ([500, 404, 302, 200].map Event.update)).brkr.HalfSucCounter = 0 ∧
      (run halfOpenTrial ([500, 404, 302, 200].map Event.update)).brkr.RequestCounter
        = halfOpenTrial.brkr.RequestCounter ∧
      (run halfOpenTrial ([500, 404, 302, 200].map Event.update)).brkr.SuccessCounter
        = halfOpenTrial.brkr.SuccessCounter) :=
  ⟨by decide!, rfl,
    halfOpen_batch_reopens halfOpenTrial [500, 404, 302, 200] rfl rfl rfl rfl (by decide)
      (by decide!)⟩

/-- C10, counterexample: on the brand-new breaker of the gateway the divisor is
zero and `GetFailedRequests` returns what the division `0 / 0` gives, NaN. -/
theorem getFailedRequests_new_is_nan :
    NewBreaker (Float64.finite (1 / 2)) = Except.ok gatewayBreaker ∧
      phaseDenominator gatewayBreaker = 0 ∧
      (GetFailedRequests gatewayBreaker).1
        = Float64.div (Float64.ofInt 0) (Float64.ofInt 0) ∧
      (GetFailedRequests gatewayBreaker).1 = Float64.nan := by
  refine ⟨?_, by decide, rfl, by decide!⟩
  have h : ¬ Float64.le (Float64.finite (1 / 2)) (Float64.finite 0) = true := by
    simp [Float64.le]
  rw [NewBreaker, if_neg h]
  rfl

/-- C10, amended: on every breaker whose phase denominator is zero,
`GetFailedRequests` returns the result of the `float64` division of the phase
numerator by zero; that result is never a finite number, and it is NaN when the
numerator is zero too; the breaker is handed back unchanged. -/
theorem getFailedRequests_zero_denominator (brkr : Breaker)
    (h : phaseDenominator brkr = 0) :
    (GetFailedRequests brkr).1
        = Float64.div (Float64.ofInt (phaseNumerator brkr)) (Float64.ofInt 0) ∧
      (∀ q, (GetFailedRequests brkr).1 ≠ Float64.finite q) ∧
      (phaseNumerator brkr = 0 → (GetFailedRequests brkr).1 = Float64.nan) ∧
      (GetFailedRequests brkr).2 = brkr := by
  have e : (GetFailedRequests brkr).1
      = Float64.div (Float64.ofInt (phaseNumerator brkr)) (Float64.ofInt 0) := by
    unfold phaseDenominator at h
    unfold GetFailedRequests phaseNumerator
    split_ifs at h ⊢ <;> simp only [h]
  refine ⟨e, fun q => ?_, fun hn => ?_, getFailedRequests_snd brkr⟩
  · rw [e, float64_ofInt_zero]
    exact float64_div_zero_not_finite _ q
  · rw [e, hn, float64_ofInt_zero]
    simp [Float64.div]

/-- C10, amended, on a closed breaker whose counters were reset. -/
theorem getFailedRequests_zero_denominator_witness :
    (GetFailedRequests gatewayBreaker).1
        = Float64.div (Float64.ofInt (phaseNumerator gatewayBreaker)) (Float64.ofInt 0) ∧
      (∀ q, (GetFailedRequests gatewayBreaker).1 ≠ Float64.finite q) ∧
      (phaseNumerator gatewayBreaker = 0 →
        (GetFailedRequests gatewayBreaker).1 = Float64.nan) ∧
      (GetFailedRequests gatewayBreaker).2 = gatewayBreaker :=
  getFailedRequests_zero_denominator gatewayBreaker (by decide)

/-! ## Counters, the recovery timer, the open period -/

theorem run_updates_open (codes : List Int) (w : World)
    (hst : w.brkr.CurrentStatus = Status.OPEN) :
    run w (codes.map Event.update) = w := by
  induction codes with
  | nil => rfl
  | cons c cs ih =>
    rw [List.map_cons, run_cons, step_update, updateStatus_open _ _ hst, List.append_nil]
    exact ih

theorem timers_nil_of_not_open (w : World) (hw : Reachable w)
    (hst : w.brkr.CurrentStatus ≠ Status.OPEN) : w.timers = [] := by
  rcases (inv_of_reachable w hw).1 with h | ⟨h, _⟩
  · exact h
  · exact absurd h hst

/-- C11: in every state reachable from a new breaker by `UpdateStatus` calls
and timer firings, the four counters are non-negative, `SuccessCounter` is at
most `RequestCounter` and `HalfSucCounter` is at most `HalfReqCounter`. -/
theorem counters_ordered (w : World) (hw : Reachable w) :
    0 ≤ w.brkr.RequestCounter ∧ 0 ≤ w.brkr.SuccessCounter ∧
      0 ≤ w.brkr.HalfReqCounter ∧ 0 ≤ w.brkr.HalfSucCounter ∧
      w.brkr.SuccessCounter ≤ w.brkr.RequestCounter ∧
      w.brkr.HalfSucCounter ≤ w.brkr.HalfReqCounter := by
  obtain ⟨_, _, _, hr, hs, h0, h1⟩ := inv_of_reachable w hw
  refine ⟨by omega, h0, by omega, by omega, h1, by omega⟩

/-- C11, after two successes, a failure, the timer and a failed trial. -/
theorem counters_ordered_witness :
    0 ≤ (run gatewayWorld [Event.update 200, Event.update 201, Event.update 503,
          Event.fire 0, Event.update 500]).brkr.RequestCounter ∧
      0 ≤ (run gatewayWorld [Event.update 200, Event.update 201, Event.update 503,
          Event.fire 0, Event.update 500]).brkr.SuccessCounter ∧
      0 ≤ (run gatewayWorld [Event.update 200, Event.update 201, Event.update 503,
          Event.fire 0, Event.update 500]).brkr.HalfReqCounter ∧
      0 ≤ (run gatewayWorld [Event.update 200, Event.update 201, Event.update 503,
          Event.fire 0, Event.update 500]).brkr.HalfSucCounter ∧
      (run gatewayWorld [Event.update 200, Event.update 201, Event.update 503,
          Event.fire 0, Event.update 500]).brkr.SuccessCounter
        ≤ (run gatewayWorld [Event.update 200, Event.update 201, Event.update 503,
          Event.fire 0, Event.update 500]).brkr.RequestCounter ∧
      (run gatewayWorld [Event.update 200, Event.update 201, Event.update 503,
          Event.fire 0, Event.update 500]).brkr.HalfSucCounter
        ≤ (run gatewayWorld [Event.update 200, Event.update 201, Event.update 503,
          Event.fire 0, Event.update 500]).brkr.HalfReqCounter :=
  counters_ordered _ (reachable_run gatewayWorld _ reachable_gatewayWorld)

/-- C12: a breaker in status `CLOSE` records a failure, which starts a timer;
any number of further outcomes are recorded while it is `OPEN`; then that timer
fires.  At that moment the status is `OPEN`; afterwards it is `HALF_OPEN`, every
other field of the breaker is as it was, the timer is no longer pending, and
`AllowFlow` answers true. -/
theorem timer_fire_half_opens (w : World) (respCode : Int) (later : List Int)
    (hst : w.brkr.CurrentStatus = Status.CLOSE) (hf : ¬ IsSuccess respCode) :
    (run w (Event.update respCode :: later.map Event.update)).brkr.CurrentStatus
        = Status.OPEN ∧
      (run w (Event.update respCode :: later.map Event.update)).timers
        = w.timers ++ [Status.HALF_OPEN] ∧
      (step (run w (Event.update respCode :: later.map Event.update))
          (Event.fire w.timers.length)).brkr
        = { (run w (Event.update respCode :: later.map Event.update)).brkr with
            CurrentStatus := Status.HALF_OPEN } ∧
      (step (run w (Event.update respCode :: later.map Event.update))
          (Event.fire w.timers.length)).timers = w.timers ∧
      (AllowFlow (step (run w (Event.update respCode :: later.map Event.update))
          (Event.fire w.timers.length)).brkr).1 = true := by
  have hcode : ¬ Int.tdiv respCode 100 = 2 := fun h => hf ((tdiv_hundred_eq_two_iff _).1 h)
  have h1 : step w (Event.update respCode) =
      { brkr := { w.brkr with RequestCounter := w.brkr.RequestCounter + 1
                              CurrentStatus := Status.OPEN }
        timers := w.timers ++ [Status.HALF_OPEN] } := by
    rw [step_update, updateStatus_close _ _ hst, if_neg hcode]
  have h2 : run w (Event.update respCode :: later.map Event.update) =
      { brkr := { w.brkr with RequestCounter := w.brkr.RequestCounter + 1
                              CurrentStatus := Status.OPEN }
        timers := w.timers ++ [Status.HALF_OPEN] } := by
    rw [run_cons, h1]
    exact run_updates_open later _ rfl
  have h3 : step { brkr := { w.brkr with RequestCounter := w.brkr.RequestCounter + 1
                                         CurrentStatus := Status.OPEN }
                   timers := w.timers ++ [Status.HALF_OPEN] } (Event.fire w.timers.length) =
      { brkr := { w.brkr with RequestCounter := w.brkr.RequestCounter + 1
                              CurrentStatus := Status.HALF_OPEN }
        timers := w.timers } := by
    have e1 : (w.timers ++ [Status.HALF_OPEN]).get? w.timers.length = some Status.HALF_OPEN := by
      simp
    have e2 : (w.timers ++ [Status.HALF_OPEN]).eraseIdx w.timers.length = w.timers := by
      rw [List.eraseIdx_append_of_length_le (le_refl _)]; simp
    simp only [step, e1, e2, Timer]
  rw [h2, h3]
  exact ⟨rfl, rfl, rfl, rfl, rfl⟩

/-- C12, on the gateway's breaker: it trips on a 500, two more outcomes arrive
while it is open, the timer fires. -/
theorem timer_fire_half_opens_witness :
    (run gatewayWorld (Event.update 500 :: [503, 200].map Event.update)).brkr.CurrentStatus
        = Status.OPEN ∧
      (run gatewayWorld (Event.update 500 :: [503, 200].map Event.update)).timers
        = gatewayWorld.timers ++ [Status.HALF_OPEN] ∧
      (step (run gatewayWorld (Event.update 500 :: [503, 200].map Event.update))
          (Event.fire gatewayWorld.timers.length)).brkr
        = { (run gatewayWorld (Event.update 500 :: [503, 200].map Event.update)).brkr with
            CurrentStatus := Status.HALF_OPEN } ∧
      (step (run gatewayWorld (Event.update 500 :: [503, 200].map Event.update))
          (Event.fire gatewayWorld.timers.length)).timers = gatewayWorld.timers ∧
      (AllowFlow (step (run gatewayWorld (Event.update 500 :: [503, 200].map Event.update))
          (Event.fire gatewayWorld.timers.length)).brkr).1 = true :=
  timer_fire_half_opens gatewayWorld 500 [503, 200] rfl (by decide)

/-- C13, counterexample: a timer fires on a breaker whose status is `CLOSE`;
the status becomes `HALF_OPEN`, so the firing is not a no-op. -/
theorem timer_fire_on_closed_changes_status :
    closedWithTimer.brkr.CurrentStatus = Status.CLOSE ∧
      (step closedWithTimer (Event.fire 0)).brkr.CurrentStatus = Status.HALF_OPEN ∧
      (step closedWithTimer (Event.fire 0)).brkr ≠ closedWithTimer.brkr := by
  decide!

/-- C13, amended: when a recovery timer fires on a breaker whose status is not
`OPEN`, every counter and configuration field is what it was and the status is
`HALF_OPEN` afterwards; that changes nothing on a `HALF_OPEN` breaker and moves
a `CLOSE` breaker to `HALF_OPEN`. -/
theorem timer_fire_not_open (w : World) (i : Nat)
    (hi : w.timers.get? i = some Status.HALF_OPEN)
    (_hst : w.brkr.CurrentStatus ≠ Status.OPEN) :
    (step w (Event.fire i)).brkr = { w.brkr with CurrentStatus := Status.HALF_OPEN } ∧
      (step w (Event.fire i)).brkr.RequestCounter = w.brkr.RequestCounter ∧
      (step w (Event.fire i)).brkr.SuccessCounter = w.brkr.SuccessCounter ∧
      (step w (Event.fire i)).brkr.HalfReqCounter = w.brkr.HalfReqCounter ∧
      (step w (Event.fire i)).brkr.HalfSucCounter = w.brkr.HalfSucCounter ∧
      (w.brkr.CurrentStatus = Status.HALF_OPEN → (step w (Event.fire i)).brkr = w.brkr) ∧
      (w.brkr.CurrentStatus = Status.CLOSE →
        (step w (Event.fire i)).brkr.CurrentStatus = Status.HALF_OPEN) := by
  have e : (step w (Event.fire i)).brkr = { w.brkr with CurrentStatus := Status.HALF_OPEN } := by
    simp only [step, hi, Timer]
  rw [e]
  refine ⟨rfl, rfl, rfl, rfl, rfl, fun h => ?_, fun _ => rfl⟩
  rw [← h]

/-- C13, amended, on a closed breaker with a pending timer. -/
theorem timer_fire_not_open_witness :
    (step closedWithTimer (Event.fire 0)).brkr
        = { closedWithTimer.brkr with CurrentStatus := Status.HALF_OPEN } ∧
      (step closedWithTimer (Event.fire 0)).brkr.RequestCounter
        = closedWithTimer.brkr.RequestCounter ∧
      (step closedWithTimer (Event.fire 0)).brkr.SuccessCounter
        = closedWithTimer.brkr.SuccessCounter ∧
      (step closedWithTimer (Event.fire 0)).brkr.HalfReqCounter
        = closedWithTimer.brkr.HalfReqCounter ∧
      (step closedWithTimer (Event.fire 0)).brkr.HalfSucCounter
        = closedWithTimer.brkr.HalfSucCounter ∧
      (closedWithTimer.brkr.CurrentStatus = Status.HALF_OPEN →
        (step closedWithTimer (Event.fire 0)).brkr = closedWithTimer.brkr) ∧
      (closedWithTimer.brkr.CurrentStatus = Status.CLOSE →
        (step closedWithTimer (Event.fire 0)).brkr.CurrentStatus = Status.HALF_OPEN) :=
  timer_fire_not_open closedWithTimer 0 rfl (by decide)

theorem perform_open (w : World) (c : Call) (hst : w.brkr.CurrentStatus = Status.OPEN) :
    perform w c = (w, if c = Call.allowFlow then [false] else []) := by
  cases c with
  | allowFlow =>
    simp only [perform, AllowFlow, hst]
    rfl
  | updateStatus respCode =>
    simp only [perform, step_update, updateStatus_open _ _ hst, List.append_nil]
    rfl

/-- C14: while the status is `OPEN` and no timer fires, any finite sequence of
`AllowFlow` and `UpdateStatus` calls, with any response codes, leaves the
breaker and its pending timers exactly as they were, so the status stays
`OPEN`; each `AllowFlow` call is answered, and every answer is false. -/
theorem open_calls_change_nothing (w : World) (cs : List Call)
    (hst : w.brkr.CurrentStatus = Status.OPEN) :
    (performAll w cs).1 = w ∧
      (performAll w cs).1.brkr.CurrentStatus = Status.OPEN ∧
      (performAll w cs).2 = List.replicate (cs.count Call.allowFlow) false := by
  have key : (performAll w cs).1 = w ∧
      (performAll w cs).2 = List.replicate (cs.count Call.allowFlow) false := by
    induction cs with
    | nil => exact ⟨rfl, rfl⟩
    | cons c cs ih =>
      simp only [performAll, perform_open w c hst]
      refine ⟨ih.1, ?_⟩
      rw [ih.2]
      by_cases hc : c = Call.allowFlow
      · subst hc
        rw [if_pos rfl, List.count_cons_self, List.replicate_succ]
        rfl
      · rw [if_neg hc, List.count_cons_of_ne (Ne.symm hc), List.nil_append]
  exact ⟨key.1, by rw [key.1]; exact hst, key.2⟩

/-- C14, on the gateway's breaker after it tripped. -/
theorem open_calls_change_nothing_witness :
    (performAll (run gatewayWorld [Event.update 500])
        [Call.allowFlow, Call.updateStatus 200, Call.allowFlow, Call.updateStatus 500]).1
        = run gatewayWorld [Event.update 500] ∧
      (performAll (run gatewayWorld [Event.update 500])
        [Call.allowFlow, Call.updateStatus 200, Call.allowFlow,
          Call.updateStatus 500]).1.brkr.CurrentStatus = Status.OPEN ∧
      (performAll (run gatewayWorld [Event.update 500])
        [Call.allowFlow, Call.updateStatus 200, Call.allowFlow, Call.updateStatus 500]).2
        = List.replicate
            ([Call.allowFlow, Call.updateStatus 200, Call.allowFlow,
              Call.updateStatus 500].count Call.allowFlow) false :=
  open_calls_change_nothing (run gatewayWorld [Event.update 500]) _ (by decide)

/-- C15: the test `respCode/100 == 2` of `UpdateStatus` holds exactly for the
codes `200..299`, for every integer code; two codes of the same class give the
same breaker and start the same timers, from every breaker state; on a closed
breaker `502` opens the circuit exactly as `500` does. -/
theorem updateStatus_depends_on_class :
    (∀ respCode : Int, Int.tdiv respCode 100 = 2 ↔ (200 ≤ respCode ∧ respCode ≤ 299)) ∧
      (∀ (brkr : Breaker) (c1 c2 : Int), (IsSuccess c1 ↔ IsSuccess c2) →
        UpdateStatus brkr c1 = UpdateStatus brkr c2) ∧
      (∀ brkr : Breaker, brkr.CurrentStatus = Status.CLOSE →
        UpdateStatus brkr 502 = UpdateStatus brkr 500 ∧
          (UpdateStatus brkr 502).1.CurrentStatus = Status.OPEN) := by
  have hclass : ∀ (brkr : Breaker) (c1 c2 : Int), (IsSuccess c1 ↔ IsSuccess c2) →
      UpdateStatus brkr c1 = UpdateStatus brkr c2 := by
    intro brkr c1 c2 h
    have ht : (Int.tdiv c1 100 = 2) = (Int.tdiv c2 100 = 2) :=
      propext ((tdiv_hundred_eq_two_iff c1).trans (h.trans (tdiv_hundred_eq_two_iff c2).symm))
    cases hst : brkr.CurrentStatus with
    | OPEN => rw [updateStatus_open _ _ hst, updateStatus_open _ _ hst]
    | CLOSE =>
      rw [updateStatus_close _ _ hst, updateStatus_close _ _ hst]
      simp only [ht]
    | HALF_OPEN =>
      rw [updateStatus_halfOpen _ _ hst, updateStatus_halfOpen _ _ hst]
      simp only [halfOpenTally, ht]
  refine ⟨fun c => tdiv_hundred_eq_two_iff c, hclass, fun brkr hst => ?_⟩
  refine ⟨hclass brkr 502 500 (by decide), ?_⟩
  rw [updateStatus_close _ _ hst, if_neg (by decide)]

/-! ## The half-open phase -/

theorem float64_zero_div_one :
    Float64.div (Float64.ofInt 0) (Float64.ofInt 1) = Float64.finite 0 := by
  decide!

theorem float64_one_div_one :
    Float64.div (Float64.ofInt 1) (Float64.ofInt 1) = Float64.finite 1 := by
  decide!

theorem reachable_step (w : World) (ev : Event) (h : Reachable w) : Reachable (step w ev) :=
  reachable_run w [ev] h

/-- C19: in every state reachable from a new breaker, both half-open counters
are zero whenever the status is not `HALF_OPEN`; a timer that moves the breaker
into `HALF_OPEN` leaves it there with both at zero; a record that moves it out
of `HALF_OPEN`, to `OPEN` or to `CLOSE`, leaves both at zero. -/
theorem halfOpen_counters_zero_outside (w : World) (hw : Reachable w) :
    (w.brkr.CurrentStatus ≠ Status.HALF_OPEN →
        w.brkr.HalfReqCounter = 0 ∧ w.brkr.HalfSucCounter = 0) ∧
      (∀ i, w.brkr.CurrentStatus ≠ Status.HALF_OPEN →
        (step w (Event.fire i)).brkr.CurrentStatus = Status.HALF_OPEN →
        (step w (Event.fire i)).brkr.HalfReqCounter = 0 ∧
          (step w (Event.fire i)).brkr.HalfSucCounter = 0) ∧
      (∀ respCode, w.brkr.CurrentStatus = Status.HALF_OPEN →
        (step w (Event.update respCode)).brkr.CurrentStatus ≠ Status.HALF_OPEN →
        (step w (Event.update respCode)).brkr.HalfReqCounter = 0 ∧
          (step w (Event.update respCode)).brkr.HalfSucCounter = 0) := by
  have h := inv_of_reachable w hw
  refine ⟨fun _ => ⟨h.2.2.2.1, h.2.2.2.2.1⟩, fun i _ _ => ?_, fun c _ _ => ?_⟩
  · have h2 := inv_of_reachable _ (reachable_step w (Event.fire i) hw)
    exact ⟨h2.2.2.2.1, h2.2.2.2.2.1⟩
  · have h2 := inv_of_reachable _ (reachable_step w (Event.update c) hw)
    exact ⟨h2.2.2.2.1, h2.2.2.2.2.1⟩

/-- C19, on the gateway's breaker after it tripped, with its timer pending. -/
theorem halfOpen_counters_zero_outside_witness :
    ((run gatewayWorld [Event.update 500]).brkr.CurrentStatus ≠ Status.HALF_OPEN →
        (run gatewayWorld [Event.update 500]).brkr.HalfReqCounter = 0 ∧
          (run gatewayWorld [Event.update 500]).brkr.HalfSucCounter = 0) ∧
      (∀ i, (run gatewayWorld [Event.update 500]).brkr.CurrentStatus ≠ Status.HALF_OPEN →
        (step (run gatewayWorld [Event.update 500]) (Event.fire i)).brkr.CurrentStatus
          = Status.HALF_OPEN →
        (step (run gatewayWorld [Event.update 500]) (Event.fire i)).brkr.HalfReqCounter = 0 ∧
          (step (run gatewayWorld [Event.update 500]) (Event.fire i)).brkr.HalfSucCounter
            = 0) ∧
      (∀ respCode, (run gatewayWorld [Event.update 500]).brkr.CurrentStatus
          = Status.HALF_OPEN →
        (step (run gatewayWorld [Event.update 500]) (Event.update respCode)).brkr.CurrentStatus
          ≠ Status.HALF_OPEN →
        (step (run gatewayWorld [Event.update 500])
          (Event.update respCode)).brkr.HalfReqCounter = 0 ∧
          (step (run gatewayWorld [Event.update 500])
            (Event.update respCode)).brkr.HalfSucCounter = 0) :=
  halfOpen_counters_zero_outside (run gatewayWorld [Event.update 500])
    (reachable_run gatewayWorld _ reachable_gatewayWorld)

/-- C20: in a reachable state with status `HALF_OPEN`, for every response code,
`UpdateStatus` calls `GetFailedRequests` on the breaker as tallied; there the
status is still `HALF_OPEN` and `HalfReqCounter` is at least one, and the rate
compared with the threshold is the finite number
`(HalfReqCounter - HalfSucCounter) / HalfReqCounter`, between zero and one. -/
theorem halfOpen_rate_well_defined (w : World) (respCode : Int)
    (hw : Reachable w) (hst : w.brkr.CurrentStatus = Status.HALF_OPEN) :
    (UpdateStatus w.brkr respCode).1 =
        (if Float64.ge (GetFailedRequests (halfOpenTally w.brkr respCode)).1
            w.brkr.FailureThreshold then
          { w.brkr with CurrentStatus := Status.OPEN, HalfReqCounter := 0, HalfSucCounter := 0 }
        else
          { w.brkr with CurrentStatus := Status.CLOSE, RequestCounter := 0,
                        SuccessCounter := 0, HalfReqCounter := 0, HalfSucCounter := 0 }) ∧
      (halfOpenTally w.brkr respCode).CurrentStatus = Status.HALF_OPEN ∧
      1 ≤ (halfOpenTally w.brkr respCode).HalfReqCounter ∧
      ∃ q : ℚ, (GetFailedRequests (halfOpenTally w.brkr respCode)).1 = Float64.finite q ∧
        q = (((halfOpenTally w.brkr respCode).HalfReqCounter
              - (halfOpenTally w.brkr respCode).HalfSucCounter : Int) : ℚ)
            / (((halfOpenTally w.brkr respCode).HalfReqCounter : Int) : ℚ) ∧
        0 ≤ q ∧ q ≤ 1 := by
  obtain ⟨_, _, hm, hr, hs, _, _⟩ := inv_of_reachable w hw
  have hts : (halfOpenTally w.brkr respCode).CurrentStatus = Status.HALF_OPEN := hst
  have hreq : (halfOpenTally w.brkr respCode).HalfReqCounter = 1 := by
    simp only [halfOpenTally]; omega
  have hge : (halfOpenTally w.brkr respCode).HalfReqCounter ≥ w.brkr.MaxHalfOpenReqs := by
    rw [hreq, hm]; decide
  refine ⟨?_, hts, by rw [hreq], ?_⟩
  · rw [updateStatus_halfOpen _ _ hst, if_pos hge, getFailedRequests_halfOpen _ hts]
    split_ifs <;> rfl
  · rw [getFailedRequests_halfOpen _ hts]
    unfold halfOpenRate
    rw [hreq]
    by_cases hc : Int.tdiv respCode 100 = 2
    · have hsuc : (halfOpenTally w.brkr respCode).HalfSucCounter = 1 := by
        simp only [halfOpenTally, if_pos hc]; omega
      rw [hsuc]
      exact ⟨0, float64_zero_div_one, by norm_num, le_refl _, by norm_num⟩
    · have hsuc : (halfOpenTally w.brkr respCode).HalfSucCounter = 0 := by
        simp only [halfOpenTally, if_neg hc]; omega
      rw [hsuc]
      exact ⟨1, float64_one_div_one, by norm_num, by norm_num, le_refl _⟩

/-- C20, on the gateway's breaker in its half-open trial, for the code `200`. -/
theorem halfOpen_rate_well_defined_witness :
    (UpdateStatus (run gatewayWorld [Event.update 500, Event.fire 0]).brkr 200).1 =
        (if Float64.ge (GetFailedRequests (halfOpenTally
              (run gatewayWorld [Event.update 500, Event.fire 0]).brkr 200)).1
            (run gatewayWorld [Event.update 500, Event.fire 0]).brkr.FailureThreshold then
          { (run gatewayWorld [Event.update 500, Event.fire 0]).brkr with
            CurrentStatus := Status.OPEN, HalfReqCounter := 0, HalfSucCounter := 0 }
        else
          { (run gatewayWorld [Event.update 500, Event.fire 0]).brkr with
            CurrentStatus := Status.CLOSE, RequestCounter := 0,
            SuccessCounter := 0, HalfReqCounter := 0, HalfSucCounter := 0 }) ∧
      (halfOpenTally (run gatewayWorld [Event.update 500, Event.fire 0]).brkr
        200).CurrentStatus = Status.HALF_OPEN ∧
      1 ≤ (halfOpenTally (run gatewayWorld [Event.update 500, Event.fire 0]).brkr
        200).HalfReqCounter ∧
      ∃ q : ℚ, (GetFailedRequests (halfOpenTally
            (run gatewayWorld [Event.update 500, Event.fire 0]).brkr 200)).1
          = Float64.finite q ∧
        q = (((halfOpenTally (run gatewayWorld [Event.update 500, Event.fire 0]).brkr
                200).HalfReqCounter
              - (halfOpenTally (run gatewayWorld [Event.update 500, Event.fire 0]).brkr
                200).HalfSucCounter : Int) : ℚ)
            / (((halfOpenTally (run gatewayWorld [Event.update 500, Event.fire 0]).brkr
                200).HalfReqCounter : Int) : ℚ) ∧
        0 ≤ q ∧ q ≤ 1 :=
  halfOpen_rate_well_defined (run gatewayWorld [Event.update 500, Event.fire 0]) 200
    (reachable_run gatewayWorld _ reachable_gatewayWorld) (by decide)

/-! ## The handler -/

theorem allowFlow_snd (brkr : Breaker) : (AllowFlow brkr).2 = brkr := by
  unfold AllowFlow; split <;> rfl

theorem serveHTTP_spec (next : List WriterCall) (recorder : statusRecorder) :
    (ServeHTTP next recorder).ResponseWriter = recorder.ResponseWriter ++ next ∧
      (ServeHTTP next recorder).statusCode = (lastHeader next).getD recorder.statusCode := by
  induction next generalizing recorder with
  | nil => simp [ServeHTTP, lastHeader]
  | cons call rest ih =>
    cases call with
    | WriteHeader status =>
      have h := ih (recorder.WriteHeader status)
      have e : ServeHTTP (WriterCall.WriteHeader status :: rest) recorder
          = ServeHTTP rest (recorder.WriteHeader status) := rfl
      rw [e, h.1, h.2]
      refine ⟨by simp [statusRecorder.WriteHeader], ?_⟩
      unfold lastHeader
      simp only [List.filterMap_cons, statusRecorder.WriteHeader]
      cases hl : (List.filterMap
          (fun call =>
            match call with
            | WriterCall.WriteHeader status => some status
            | WriterCall.Write _ => none) rest) with
      | nil => simp
      | cons x xs =>
        have hy : (x :: xs).getLast? = some ((x :: xs).getLast (by simp)) :=
          List.getLast?_eq_getLast _ _
        simp only [List.getLast?_cons_cons, hy, Option.getD_some]
    | Write data =>
      have h := ih { recorder with
        ResponseWriter := recorder.ResponseWriter ++ [WriterCall.Write data] }
      have e : ServeHTTP (WriterCall.Write data :: rest) recorder
          = ServeHTTP rest { recorder with
              ResponseWriter := recorder.ResponseWriter ++ [WriterCall.Write data] } := rfl
      rw [e, h.1, h.2]
      refine ⟨by simp, ?_⟩
      unfold lastHeader
      simp only [List.filterMap_cons]

/-- C16: when the route's breaker denies the request, the handler answers with
status 503, does not call the wrapped handler, does not call `UpdateStatus`,
starts no timer and leaves the breaker as it was; when the breaker allows it,
the wrapped handler is called once, its calls reach the writer, and
`UpdateStatus` is called exactly once on the breaker, with the status of the
last `WriteHeader` call the wrapped handler made, or 200 if it made none. -/
theorem handler_gates_and_records (servicePath : String) (next : List WriterCall)
    (b : Breaker) :
    ((AllowFlow b).1 = false →
        (createCircuitBreakerHandler servicePath next b).w
          = [WriterCall.WriteHeader 503,
             WriterCall.Write
               ("Service temporarily unavailable. Circuit is OPEN for " ++ servicePath)] ∧
        (createCircuitBreakerHandler servicePath next b).forwarded = 0 ∧
        (createCircuitBreakerHandler servicePath next b).recorded = [] ∧
        (createCircuitBreakerHandler servicePath next b).timers = [] ∧
        (createCircuitBreakerHandler servicePath next b).brkr = b) ∧
      ((AllowFlow b).1 = true →
        (createCircuitBreakerHandler servicePath next b).forwarded = 1 ∧
        (createCircuitBreakerHandler servicePath next b).w = next ∧
        (createCircuitBreakerHandler servicePath next b).recorded
          = [(lastHeader next).getD 200] ∧
        (createCircuitBreakerHandler servicePath next b).brkr
          = (UpdateStatus b ((lastHeader next).getD 200)).1 ∧
        (createCircuitBreakerHandler servicePath next b).timers
          = (UpdateStatus b ((lastHeader next).getD 200)).2) := by
  have hb : (AllowFlow b).2 = b := (allowFlow_snd b)
  have hs := serveHTTP_spec next { ResponseWriter := [], statusCode := StatusOK }
  constructor
  · intro h
    unfold createCircuitBreakerHandler
    rw [if_pos h]
    exact ⟨rfl, rfl, rfl, rfl, hb⟩
  · intro h
    have hne : ¬ (AllowFlow b).1 = false := by rw [h]; decide
    unfold createCircuitBreakerHandler
    rw [if_neg hne]
    simp only [hb, hs.1, hs.2, getFailedRequests_snd, List.nil_append]
    refine ⟨?_, ?_, ?_, ?_, ?_⟩ <;> first | rfl | trivial

/-! ## Concurrent callers -/

theorem runAlone_updateStatus (w : World) (respCode : Int) :
    runAlone respCode 13 (w, Pc.switchStatus) = (step w (Event.update respCode), Pc.done) := by
  rw [step_update]
  obtain ⟨⟨thr, st, rc, hrc, sc, hsc, m, ot, hot⟩, ts⟩ := w
  cases st with
  | OPEN =>
    rw [updateStatus_open _ _ rfl]
    simp [runAlone, microStep]
  | CLOSE =>
    rw [updateStatus_close _ _ rfl]
    by_cases hc : Int.tdiv respCode 100 = 2
    · simp [runAlone, microStep, hc]
    · simp [runAlone, microStep, hc]
  | HALF_OPEN =>
    rw [updateStatus_halfOpen _ _ rfl]
    by_cases hc : Int.tdiv respCode 100 = 2
    · by_cases hb : hrc + 1 ≥ m
      · by_cases hr : Float64.ge (Float64.div (Float64.ofInt (hrc - hsc))
            (Float64.ofInt (hrc + 1))) thr = true
        · simp [runAlone, microStep, hc, hb, hr, halfOpenTally, halfOpenRate,
            GetFailedRequests]
        · simp [runAlone, microStep, hc, hb, hr, halfOpenTally, halfOpenRate,
            GetFailedRequests]
      · simp [runAlone, microStep, hc, hb, halfOpenTally]
    · by_cases hb : hrc + 1 ≥ m
      · by_cases hr : Float64.ge (Float64.div (Float64.ofInt (hrc + 1 - hsc))
            (Float64.ofInt (hrc + 1))) thr = true
        · simp [runAlone, microStep, hc, hb, hr, halfOpenTally, halfOpenRate,
            GetFailedRequests]
        · simp [runAlone, microStep, hc, hb, hr, halfOpenTally, halfOpenRate,
            GetFailedRequests]
      · simp [runAlone, microStep, hc, hb, halfOpenTally]

/-- C17: two request goroutines are inside `UpdateStatus` on the gateway's new
breaker at the same time and take turns statement by statement; nothing
serializes them.  Both with code 200: both calls complete and the counters read
1 and 1, where the two calls one after the other give 2 and 2, so one update
is lost.  Both with code 500: both calls see `CLOSE`, both set `OPEN` and both
start a timer, where the two calls one after the other start one. -/
theorem concurrent_updates_not_serialized :
    (interleave (gatewayWorld, [⟨200, Pc.switchStatus⟩, ⟨200, Pc.switchStatus⟩])
        [0, 1, 0, 1, 0, 1, 0, 1, 0, 1, 0, 1]).2 = [⟨200, Pc.done⟩, ⟨200, Pc.done⟩] ∧
      (interleave (gatewayWorld, [⟨200, Pc.switchStatus⟩, ⟨200, Pc.switchStatus⟩])
        [0, 1, 0, 1, 0, 1, 0, 1, 0, 1, 0, 1]).1.brkr.RequestCounter = 1 ∧
      (interleave (gatewayWorld, [⟨200, Pc.switchStatus⟩, ⟨200, Pc.switchStatus⟩])
        [0, 1, 0, 1, 0, 1, 0, 1, 0, 1, 0, 1]).1.brkr.SuccessCounter = 1 ∧
      (run gatewayWorld [Event.update 200, Event.update 200]).brkr.RequestCounter = 2 ∧
      (run gatewayWorld [Event.update 200, Event.update 200]).brkr.SuccessCounter = 2 ∧
      (interleave (gatewayWorld, [⟨500, Pc.switchStatus⟩, ⟨500, Pc.switchStatus⟩])
        [0, 1, 0, 1, 0, 1, 0, 1, 0, 1, 0, 1]).2 = [⟨500, Pc.done⟩, ⟨500, Pc.done⟩] ∧
      (interleave (gatewayWorld, [⟨500, Pc.switchStatus⟩, ⟨500, Pc.switchStatus⟩])
        [0, 1, 0, 1, 0, 1, 0, 1, 0, 1, 0, 1]).1.brkr.CurrentStatus = Status.OPEN ∧
      (interleave (gatewayWorld, [⟨500, Pc.switchStatus⟩, ⟨500, Pc.switchStatus⟩])
        [0, 1, 0, 1, 0, 1, 0, 1, 0, 1, 0, 1]).1.timers
        = [Status.HALF_OPEN, Status.HALF_OPEN] ∧
      (run gatewayWorld [Event.update 500, Event.update 500]).timers = [Status.HALF_OPEN] := by
  decide!

/-! ## Recording on machine integers -/

theorem wrap64_of_isInt64 (x : Int) (h : IsInt64 x) : wrap64 x = x := by
  unfold IsInt64 MinInt64 MaxInt64 at h
  unfold wrap64
  omega

theorem wrap64_succ (x : Int) (h : IsInt64 x) :
    wrap64 (x + 1) = if x = MaxInt64 then MinInt64 else x + 1 := by
  unfold IsInt64 MinInt64 MaxInt64 at h
  unfold wrap64 MinInt64 MaxInt64
  split_ifs <;> omega

theorem wrap64_succ_of_lt (x : Int) (h : IsInt64 x) (hlt : x < MaxInt64) :
    wrap64 (x + 1) = x + 1 := by
  rw [wrap64_succ x h, if_neg (by omega)]

theorem getFailedRequests64_snd (brkr : Breaker) : (GetFailedRequests64 brkr).2 = brkr := by
  unfold GetFailedRequests64; split <;> rfl

theorem updateStatus64_open (brkr : Breaker) (respCode : Int)
    (h : brkr.CurrentStatus = Status.OPEN) : UpdateStatus64 brkr respCode = (brkr, []) := by
  unfold UpdateStatus64; rw [h]

theorem updateStatus64_close (brkr : Breaker) (respCode : Int)
    (h : brkr.CurrentStatus = Status.CLOSE) :
    UpdateStatus64 brkr respCode =
      if Int.tdiv respCode 100 = 2 then
        ({ brkr with RequestCounter := wrap64 (brkr.RequestCounter + 1)
                     SuccessCounter := wrap64 (brkr.SuccessCounter + 1) }, [])
      else
        ({ brkr with RequestCounter := wrap64 (brkr.RequestCounter + 1)
                     CurrentStatus := Status.OPEN }, [Status.HALF_OPEN]) := by
  unfold UpdateStatus64; rw [h]

theorem updateStatus64_halfOpen (brkr : Breaker) (respCode : Int)
    (h : brkr.CurrentStatus = Status.HALF_OPEN) :
    UpdateStatus64 brkr respCode =
      if wrap64 (brkr.HalfReqCounter + 1) ≥ brkr.MaxHalfOpenReqs then
        if Float64.ge
            (GetFailedRequests64
              { brkr with
                HalfReqCounter := wrap64 (brkr.HalfReqCounter + 1)
                HalfSucCounter :=
                  if Int.tdiv respCode 100 = 2 then wrap64 (brkr.HalfSucCounter + 1)
                  else brkr.HalfSucCounter }).1
            brkr.FailureThreshold then
          ({ brkr with CurrentStatus := Status.OPEN, HalfReqCounter := 0, HalfSucCounter := 0 }, [])
        else
          ({ brkr with CurrentStatus := Status.CLOSE, RequestCounter := 0, SuccessCounter := 0,
                       HalfReqCounter := 0, HalfSucCounter := 0 }, [])
      else
        ({ brkr with
           HalfReqCounter := wrap64 (brkr.HalfReqCounter + 1)
           HalfSucCounter :=
             if Int.tdiv respCode 100 = 2 then wrap64 (brkr.HalfSucCounter + 1)
             else brkr.HalfSucCounter }, []) := by
  obtain ⟨thr, st, rc, hrc, sc, hsc, m, ot, hot⟩ := brkr
  simp only at h
  subst h
  by_cases hc : Int.tdiv respCode 100 = 2
  · simp only [UpdateStatus64, hc, if_true, getFailedRequests64_snd]
    split_ifs <;> rfl
  · simp only [UpdateStatus64, hc, if_false, getFailedRequests64_snd]
    split_ifs <;> rfl

theorem getFailedRequests64_eq (brkr : Breaker) (h : CountersBelowMax brkr) :
    GetFailedRequests64 brkr = GetFailedRequests brkr := by
  obtain ⟨⟨h1, h2⟩, ⟨h3, h4⟩, ⟨h5, h6⟩, ⟨h7, h8⟩⟩ := h
  unfold MaxInt64 at h2 h4 h6 h8
  have e1 : wrap64 (brkr.HalfReqCounter - brkr.HalfSucCounter)
      = brkr.HalfReqCounter - brkr.HalfSucCounter := by
    unfold wrap64; omega
  have e2 : wrap64 (brkr.RequestCounter - brkr.SuccessCounter)
      = brkr.RequestCounter - brkr.SuccessCounter := by
    unfold wrap64; omega
  unfold GetFailedRequests64 GetFailedRequests
  rw [e1, e2]

theorem updateStatus64_eq (brkr : Breaker) (respCode : Int) (h : CountersBelowMax brkr) :
    UpdateStatus64 brkr respCode = UpdateStatus brkr respCode := by
  obtain ⟨⟨h1, h2⟩, ⟨h3, h4⟩, ⟨h5, h6⟩, ⟨h7, h8⟩⟩ := h
  have i1 : wrap64 (brkr.RequestCounter + 1) = brkr.RequestCounter + 1 :=
    wrap64_succ_of_lt _ ⟨by unfold MinInt64; omega, le_of_lt h2⟩ h2
  have i2 : wrap64 (brkr.SuccessCounter + 1) = brkr.SuccessCounter + 1 :=
    wrap64_succ_of_lt _ ⟨by unfold MinInt64; omega, le_of_lt h4⟩ h4
  have i3 : wrap64 (brkr.HalfReqCounter + 1) = brkr.HalfReqCounter + 1 :=
    wrap64_succ_of_lt _ ⟨by unfold MinInt64; omega, le_of_lt h6⟩ h6
  have i4 : wrap64 (brkr.HalfSucCounter + 1) = brkr.HalfSucCounter + 1 :=
    wrap64_succ_of_lt _ ⟨by unfold MinInt64; omega, le_of_lt h8⟩ h8
  cases hst : brkr.CurrentStatus with
  | OPEN => rw [updateStatus64_open _ _ hst, updateStatus_open _ _ hst]
  | CLOSE => rw [updateStatus64_close _ _ hst, updateStatus_close _ _ hst, i1, i2]
  | HALF_OPEN =>
    rw [updateStatus64_halfOpen _ _ hst, updateStatus_halfOpen _ _ hst, i3, i4]
    have et : ({ brkr with
          HalfReqCounter := brkr.HalfReqCounter + 1
          HalfSucCounter :=
            if Int.tdiv respCode 100 = 2 then brkr.HalfSucCounter + 1
            else brkr.HalfSucCounter } : Breaker) = halfOpenTally brkr respCode := by
      unfold halfOpenTally
      split_ifs <;> simp
    rw [et]
    have hts : (halfOpenTally brkr respCode).CurrentStatus = Status.HALF_OPEN := hst
    have hg : (GetFailedRequests64 (halfOpenTally brkr respCode)).1
        = halfOpenRate (halfOpenTally brkr respCode) := by
      unfold GetFailedRequests64 halfOpenRate
      rw [if_pos hts]
      have e : wrap64 ((halfOpenTally brkr respCode).HalfReqCounter
            - (halfOpenTally brkr respCode).HalfSucCounter)
          = (halfOpenTally brkr respCode).HalfReqCounter
            - (halfOpenTally brkr respCode).HalfSucCounter := by
        unfold MaxInt64 at h6 h8
        unfold wrap64 halfOpenTally
        split_ifs <;> simp only [] <;> omega
      rw [e]
    rw [hg]
    rfl

theorem reachable_updateStatus64_eq (w : World) (respCode : Int) (hw : Reachable w)
    (h : w.brkr.RequestCounter < MaxInt64) :
    UpdateStatus64 w.brkr respCode = UpdateStatus w.brkr respCode := by
  obtain ⟨_, _, _, hr, hs, h0, h1⟩ := inv_of_reachable w hw
  refine updateStatus64_eq _ _ ⟨⟨by omega, h⟩, ⟨h0, by omega⟩, ⟨by omega, ?_⟩, ⟨by omega, ?_⟩⟩
  · rw [hr]; decide
  · rw [hs]; decide

/-- The step at the largest `int`: the request counter of `closedAtMax` wraps to
the smallest `int`. -/
theorem closed_failure_at_max :
    (UpdateStatus64 closedAtMax 500).1.CurrentStatus = Status.OPEN ∧
      (UpdateStatus64 closedAtMax 500).1.RequestCounter = -9223372036854775808 ∧
      (UpdateStatus64 closedAtMax 500).1.SuccessCounter = 12 := by
  decide

/-- C6: on a breaker in status `CLOSE`, whatever its counters, one
`UpdateStatus` call with a code outside `200..299` sets the status to `OPEN`,
increments `RequestCounter` (the `++` of an `int`: exactly one more for every
value below the largest `int`, from which it wraps to the smallest), leaves
`SuccessCounter` and both half-open counters as they were, and starts one
recovery timer. -/
theorem closed_failure_opens (brkr : Breaker) (respCode : Int)
    (hc : brkr.CurrentStatus = Status.CLOSE) (hf : ¬ IsSuccess respCode)
    (hr : IsInt64 brkr.RequestCounter) :
    (UpdateStatus64 brkr respCode).1.CurrentStatus = Status.OPEN ∧
      (UpdateStatus64 brkr respCode).1.RequestCounter = wrap64 (brkr.RequestCounter + 1) ∧
      (brkr.RequestCounter < MaxInt64 →
        (UpdateStatus64 brkr respCode).1.RequestCounter = brkr.RequestCounter + 1) ∧
      (brkr.RequestCounter = MaxInt64 →
        (UpdateStatus64 brkr respCode).1.RequestCounter = MinInt64) ∧
      (UpdateStatus64 brkr respCode).1.SuccessCounter = brkr.SuccessCounter ∧
      (UpdateStatus64 brkr respCode).1.HalfReqCounter = brkr.HalfReqCounter ∧
      (UpdateStatus64 brkr respCode).1.HalfSucCounter = brkr.HalfSucCounter ∧
      (UpdateStatus64 brkr respCode).2 = [Status.HALF_OPEN] := by
  have hcode : ¬ Int.tdiv respCode 100 = 2 := fun h => hf ((tdiv_hundred_eq_two_iff _).1 h)
  rw [updateStatus64_close _ _ hc, if_neg hcode]
  refine ⟨rfl, rfl, fun hlt => ?_, fun he => ?_, rfl, rfl, rfl, rfl⟩
  · exact wrap64_succ_of_lt _ hr hlt
  · show wrap64 (brkr.RequestCounter + 1) = MinInt64
    rw [wrap64_succ _ hr, if_pos he]

/-- C6, on a closed breaker with seven recorded successes and the code `500`. -/
theorem closed_failure_opens_witness :
    (UpdateStatus64 { gatewayBreaker with RequestCounter := 7, SuccessCounter := 7 }
        500).1.CurrentStatus = Status.OPEN ∧
      (UpdateStatus64 { gatewayBreaker with RequestCounter := 7, SuccessCounter := 7 }
        500).1.RequestCounter = 8 ∧
      (UpdateStatus64 { gatewayBreaker with RequestCounter := 7, SuccessCounter := 7 }
        500).1.SuccessCounter = 7 ∧
      (UpdateStatus64 { gatewayBreaker with RequestCounter := 7, SuccessCounter := 7 }
        500).1.HalfReqCounter = 0 ∧
      (UpdateStatus64 { gatewayBreaker with RequestCounter := 7, SuccessCounter := 7 }
        500).1.HalfSucCounter = 0 ∧
      (UpdateStatus64 { gatewayBreaker with RequestCounter := 7, SuccessCounter := 7 }
        500).2 = [Status.HALF_OPEN] :=
  have h := closed_failure_opens
    { gatewayBreaker with RequestCounter := 7, SuccessCounter := 7 } 500 rfl (by decide)
    (by decide)
  ⟨h.1, h.2.2.1 (by decide), h.2.2.2.2.1, h.2.2.2.2.2.1, h.2.2.2.2.2.2.1, h.2.2.2.2.2.2.2⟩

/-- C18: on a breaker in status `HALF_OPEN` whose counters are `int` values, a
record that leaves `HalfReqCounter` below `MaxHalfOpenReqs` keeps the status
`HALF_OPEN`, adds one to `HalfReqCounter`, increments `HalfSucCounter` exactly
when the code is 2xx (the `++` of an `int`: one more below the largest `int`),
leaves `RequestCounter` and `SuccessCounter` as they were and starts no timer;
a record that brings `HalfReqCounter` up to `MaxHalfOpenReqs` evaluates the
batch, so the status leaves `HALF_OPEN` and both half-open counters are reset;
and the status leaves `HALF_OPEN` only when the incremented `HalfReqCounter`
has reached `MaxHalfOpenReqs`. -/
theorem halfOpen_record (brkr : Breaker) (respCode : Int)
    (hst : brkr.CurrentStatus = Status.HALF_OPEN) (hi : CountersInt64 brkr) :
    (brkr.HalfReqCounter + 1 < brkr.MaxHalfOpenReqs →
        (UpdateStatus64 brkr respCode).1.CurrentStatus = Status.HALF_OPEN ∧
        (UpdateStatus64 brkr respCode).1.HalfReqCounter = brkr.HalfReqCounter + 1 ∧
        (UpdateStatus64 brkr respCode).1.HalfSucCounter
          = (if IsSuccess respCode then wrap64 (brkr.HalfSucCounter + 1)
             else brkr.HalfSucCounter) ∧
        (brkr.HalfSucCounter < MaxInt64 →
          (UpdateStatus64 brkr respCode).1.HalfSucCounter
            = brkr.HalfSucCounter + (if IsSuccess respCode then 1 else 0)) ∧
        (UpdateStatus64 brkr respCode).1.RequestCounter = brkr.RequestCounter ∧
        (UpdateStatus64 brkr respCode).1.SuccessCounter = brkr.SuccessCounter ∧
        (UpdateStatus64 brkr respCode).2 = []) ∧
      (brkr.HalfReqCounter < MaxInt64 → brkr.MaxHalfOpenReqs ≤ brkr.HalfReqCounter + 1 →
        (UpdateStatus64 brkr respCode).1.CurrentStatus ≠ Status.HALF_OPEN ∧
        (UpdateStatus64 brkr respCode).1.HalfReqCounter = 0 ∧
        (UpdateStatus64 brkr respCode).1.HalfSucCounter = 0) ∧
      ((UpdateStatus64 brkr respCode).1.CurrentStatus = Status.HALF_OPEN ↔
        wrap64 (brkr.HalfReqCounter + 1) < brkr.MaxHalfOpenReqs) := by
  obtain ⟨_, _, hr, hs, hm⟩ := hi
  have hiff : (UpdateStatus64 brkr respCode).1.CurrentStatus = Status.HALF_OPEN ↔
      wrap64 (brkr.HalfReqCounter + 1) < brkr.MaxHalfOpenReqs := by
    rw [updateStatus64_halfOpen _ _ hst]
    by_cases hge : wrap64 (brkr.HalfReqCounter + 1) ≥ brkr.MaxHalfOpenReqs
    · rw [if_pos hge]
      split_ifs <;> simp <;> omega
    · rw [if_neg hge]
      simp only [hst, true_iff]
      omega
  refine ⟨fun hlt => ?_, fun hlt hge => ?_, hiff⟩
  · have hlt2 : brkr.HalfReqCounter < MaxInt64 := by
      have := hm.2; omega
    have hw : wrap64 (brkr.HalfReqCounter + 1) = brkr.HalfReqCounter + 1 :=
      wrap64_succ_of_lt _ hr hlt2
    have hnot : ¬ wrap64 (brkr.HalfReqCounter + 1) ≥ brkr.MaxHalfOpenReqs := by
      rw [hw]; omega
    rw [updateStatus64_halfOpen _ _ hst, if_neg hnot]
    by_cases hc : Int.tdiv respCode 100 = 2
    · have hsuc : IsSuccess respCode := (tdiv_hundred_eq_two_iff _).1 hc
      rw [if_pos hsuc, if_pos hsuc]
      refine ⟨hst, hw, ?_, fun hslt => ?_, rfl, rfl, rfl⟩
      · show (if Int.tdiv respCode 100 = 2 then wrap64 (brkr.HalfSucCounter + 1)
            else brkr.HalfSucCounter) = wrap64 (brkr.HalfSucCounter + 1)
        rw [if_pos hc]
      · show (if Int.tdiv respCode 100 = 2 then wrap64 (brkr.HalfSucCounter + 1)
            else brkr.HalfSucCounter) = brkr.HalfSucCounter + 1
        rw [if_pos hc]
        exact wrap64_succ_of_lt _ hs hslt
    · have hsuc : ¬ IsSuccess respCode := fun h => hc ((tdiv_hundred_eq_two_iff _).2 h)
      rw [if_neg hsuc, if_neg hsuc]
      refine ⟨hst, hw, ?_, fun _ => ?_, rfl, rfl, rfl⟩
      · show (if Int.tdiv respCode 100 = 2 then wrap64 (brkr.HalfSucCounter + 1)
            else brkr.HalfSucCounter) = brkr.HalfSucCounter
        rw [if_neg hc]
      · show (if Int.tdiv respCode 100 = 2 then wrap64 (brkr.HalfSucCounter + 1)
            else brkr.HalfSucCounter) = brkr.HalfSucCounter + 0
        rw [if_neg hc, add_zero]
  · have hw : wrap64 (brkr.HalfReqCounter + 1) = brkr.HalfReqCounter + 1 :=
      wrap64_succ_of_lt _ hr hlt
    have hge2 : wrap64 (brkr.HalfReqCounter + 1) ≥ brkr.MaxHalfOpenReqs := by
      rw [hw]; exact hge
    rw [updateStatus64_halfOpen _ _ hst, if_pos hge2]
    split_ifs <;> exact ⟨by simp, rfl, rfl⟩

/-- C18, on a half-open breaker with trial count four at the start of a batch
and the code `200`: the record is a mid-batch one. -/
theorem halfOpen_record_witness :
    halfOpenTrial.brkr.HalfReqCounter + 1 < halfOpenTrial.brkr.MaxHalfOpenReqs ∧
      (UpdateStatus64 halfOpenTrial.brkr 200).1.CurrentStatus = Status.HALF_OPEN ∧
      (UpdateStatus64 halfOpenTrial.brkr 200).1.HalfReqCounter
        = halfOpenTrial.brkr.HalfReqCounter + 1 ∧
      (UpdateStatus64 halfOpenTrial.brkr 200).1.HalfSucCounter
        = halfOpenTrial.brkr.HalfSucCounter + (if IsSuccess 200 then 1 else 0) ∧
      (UpdateStatus64 halfOpenTrial.brkr 200).1.RequestCounter
        = halfOpenTrial.brkr.RequestCounter ∧
      (UpdateStatus64 halfOpenTrial.brkr 200).1.SuccessCounter
        = halfOpenTrial.brkr.SuccessCounter ∧
      (UpdateStatus64 halfOpenTrial.brkr 200).2 = [] :=
  have h := (halfOpen_record halfOpenTrial.brkr 200 rfl
    ⟨by decide, by decide, by decide, by decide, by decide⟩).1 (by decide)
  ⟨by decide, h.1, h.2.1, h.2.2.2.1 (by decide), h.2.2.2.2.1, h.2.2.2.2.2.1, h.2.2.2.2.2.2⟩

end Breaker
